/-
Verification of the validator-tool orchestration and findings-aggregation
engine of the terraform-runtask AI plan analyzer.

The Lean definitions below are a shallow embedding of the Python sources under
`lambda/runtask_fulfillment/`:

* `models/tool_models.py`      → `Severity`, `Finding`, `ToolOutput`
* `formatters/output_formatter.py` → namespace `OutputFormatter`
* `tools/s3_validator.py`      → namespace `S3Validator`
* `tools/security_group_validator.py` → namespace `SecurityGroupValidator`
* `tools/ec2_validator.py`     → namespace `EC2Validator`
* `tools/cost_estimator.py`    → namespace `CostEstimator`
* `utils/error_handling.py`    → namespace `ErrorHandling`
* `tools/registry.py`          → namespace `Registry`

Modelling conventions:
* Python strings are Lean `String`s; `len(s)` is embedded as the
  tail-recursive `strLen` (proved equal to `String.length`), `s.lower()` as
  `lowerStr`, `pat in s` as `strIn`, `sep.join(l)` as `joinSep`,
  `str(n)` for a natural number as `decRepr`, and `s.split('.')` as `pySplit`.
* Python dicts appearing as data (public-access-block flags, encryption
  spec) are association lists `List (String × β)` with `dictGet` embedding
  `d.get(key, default)`; dicts used as fixed tables are association lists in
  the source's insertion order, and iteration follows that order.
* `sorted(l, key=k)` (a stable sort) is embedded as the stable insertion
  sort `pySorted k`.
* Python floats in the cost estimator are embedded as `ℚ` (the numeric
  values exercised by the source are exact in binary floating point);
  `f"{x:.2f}"` is embedded as `fmtFixed 2` up to the rounding mode.
-/

import Mathlib

set_option maxRecDepth 16384

/-- Tail-recursive character count, accumulator form. -/
def strLenAux : List Char → Nat → Nat
  | [], n => n
  | _ :: rest, n => strLenAux rest (n + 1)

/-- Embedding of Python `len(s)` for a string (equals `String.length`,
see `strLen_eq`); tail recursive so that concrete inputs evaluate. -/
def strLen (s : String) : Nat := strLenAux s.data 0

theorem strLenAux_eq (l : List Char) : ∀ n, strLenAux l n = l.length + n := by
  induction l with
  | nil => intro n; simp [strLenAux]
  | cons c rest ih => intro n; simp [strLenAux, ih]; omega

theorem strLen_eq (s : String) : strLen s = s.length := by
  show strLenAux s.data 0 = s.data.length
  rw [strLenAux_eq, Nat.add_zero]

theorem strLen_append (a b : String) : strLen (a ++ b) = strLen a + strLen b := by
  simp [strLen_eq, String.length_append]

theorem strLen_mk (l : List Char) : strLen ⟨l⟩ = l.length := by
  show strLenAux l 0 = l.length
  rw [strLenAux_eq, Nat.add_zero]

/-- Helper for `strIn`: does `p` occur as a contiguous run in the text? -/
def strInAux (p : List Char) : List Char → Bool
  | [] => p.isEmpty
  | c :: rest => p.isPrefixOf (c :: rest) || strInAux p rest

/-- Embedding of the Python substring test `pat in text`. -/
def strIn (pat text : String) : Bool := strInAux pat.data text.data

/-- Embedding of Python `s.lower()` (the sources only lowercase ASCII). -/
def lowerStr (s : String) : String := ⟨s.data.map Char.toLower⟩

/-- Embedding of Python `"".join(parts)`. -/
def joinAll : List String → String
  | [] => ""
  | s :: rest => s ++ joinAll rest

/-- Embedding of Python `sep.join(parts)`. -/
def joinSep (sep : String) : List String → String
  | [] => ""
  | [s] => s
  | s :: rest => s ++ sep ++ joinSep sep rest

/-- Decimal digits of `n`, most significant first; `fuel` only drives the
structural recursion and any `fuel > n` gives the digits of `n`. -/
def decReprAux : Nat → Nat → List Char
  | 0, _ => []
  | fuel + 1, n =>
    if n < 10 then [Char.ofNat (48 + n)]
    else decReprAux fuel (n / 10) ++ [Char.ofNat (48 + n % 10)]

/-- Embedding of Python `str(n)` for a non-negative integer. -/
def decRepr (n : Nat) : String := ⟨decReprAux (n + 1) n⟩

/-- The last `n` characters of a string (order preserved). -/
def lastChars (n : Nat) (s : String) : List Char := (s.data.reverse.take n).reverse

/-- Embedding of Python `d.get(key, default)` on an association list. -/
def dictGet {β : Type} (d : List (String × β)) (k : String) (dflt : β) : β :=
  match d.find? (fun kv => kv.1 == k) with
  | some kv => kv.2
  | none => dflt

/-- One step of the stable insertion sort: `a` goes in front of the first
element whose key is not smaller (so earlier-listed elements with an equal
key stay in front only if they had a strictly smaller key — combined with
`List.foldr` this reproduces a stable sort, as Python's `sorted`). -/
def insertStable {α : Type} (key : α → Nat) (a : α) : List α → List α
  | [] => [a]
  | b :: rest => if key b < key a then b :: insertStable key a rest else a :: b :: rest

/-- Embedding of Python `sorted(l, key=key)` (stable). -/
def pySorted {α : Type} (key : α → Nat) (l : List α) : List α :=
  l.foldr (insertStable key) []

theorem mem_insertStable {α : Type} (key : α → Nat) (a x : α) :
    ∀ l : List α, x ∈ insertStable key a l → x = a ∨ x ∈ l := by
  intro l
  induction l with
  | nil => simp [insertStable]
  | cons b rest ih =>
    simp only [insertStable]
    by_cases h : key b < key a
    · simp only [if_pos h, List.mem_cons]
      rintro (rfl | hx)
      · right; simp
      · rcases ih hx with h1 | h1
        · left; exact h1
        · right; simp [h1]
    · simp only [if_neg h, List.mem_cons]
      rintro (rfl | hx)
      · left; rfl
      · right; exact hx

theorem mem_pySorted {α : Type} (key : α → Nat) (x : α) :
    ∀ l : List α, x ∈ pySorted key l → x ∈ l := by
  intro l
  induction l with
  | nil => simp [pySorted]
  | cons b rest ih =>
    intro hx
    simp only [pySorted, List.foldr] at hx
    rcases mem_insertStable key b x _ hx with h1 | h1
    · simp [h1]
    · exact List.mem_cons_of_mem _ (ih h1)

theorem insertStable_replicate {α : Type} (key : α → Nat) (a : α) (n : Nat) :
    insertStable key a (List.replicate n a) = List.replicate (n + 1) a := by
  cases n with
  | zero => simp [insertStable]
  | succ m => simp [List.replicate, insertStable]

theorem pySorted_replicate {α : Type} (key : α → Nat) (a : α) :
    ∀ n, pySorted key (List.replicate n a) = List.replicate n a := by
  intro n
  induction n with
  | zero => simp [pySorted]
  | succ m ih =>
    have : pySorted key (List.replicate (m + 1) a)
        = insertStable key a (pySorted key (List.replicate m a)) := by
      simp [pySorted, List.replicate]
    rw [this, ih, insertStable_replicate]

theorem infix_append_of_left {α : Type} {s a : List α} (b : List α) (h : s <:+: a) :
    s <:+: a ++ b := by
  obtain ⟨u, v, huv⟩ := h
  exact ⟨u, v ++ b, by rw [← huv]; simp⟩

theorem infix_append_of_right {α : Type} {s b : List α} (a : List α) (h : s <:+: b) :
    s <:+: a ++ b := by
  obtain ⟨u, v, huv⟩ := h
  exact ⟨a ++ u, v, by rw [← huv]; simp⟩

theorem data_append (a b : String) : (a ++ b).data = a.data ++ b.data := rfl

theorem str_append_assoc (a b c : String) : (a ++ b) ++ c = a ++ (b ++ c) := by
  cases a; cases b; cases c
  show String.mk _ = String.mk _
  simp [String.append]

theorem str_append_empty (s : String) : s ++ "" = s := by
  cases s
  show String.mk _ = String.mk _
  simp [String.append]

theorem str_empty_append (s : String) : "" ++ s = s := by
  cases s
  show String.mk _ = String.mk _
  simp [String.append]

theorem joinSep_infix_of_mem (sep : String) (x : String) :
    ∀ l : List String, x ∈ l → x.data <:+: (joinSep sep l).data := by
  intro l
  induction l with
  | nil => simp
  | cons s rest ih =>
    intro hx
    rcases List.mem_cons.mp hx with rfl | hmem
    · cases rest with
      | nil => simp [joinSep]
      | cons t ts =>
        show x.data <:+: (x ++ sep ++ joinSep sep (t :: ts)).data
        rw [data_append, data_append]
        exact infix_append_of_left _ (infix_append_of_left _ ⟨[], [], by simp⟩)
    · cases rest with
      | nil => simp at hmem
      | cons t ts =>
        show x.data <:+: (s ++ sep ++ joinSep sep (t :: ts)).data
        rw [data_append]
        exact infix_append_of_right _ (ih hmem)

theorem strLen_joinAll_replicate (s : String) :
    ∀ n, strLen (joinAll (List.replicate n s)) = n * strLen s := by
  intro n
  induction n with
  | zero =>
    have h0 : strLen (joinAll (List.replicate 0 s)) = 0 := rfl
    omega
  | succ m ih =>
    have : joinAll (List.replicate (m + 1) s) = s ++ joinAll (List.replicate m s) := by
      simp [List.replicate, joinAll]
    rw [this, strLen_append, ih]; ring

theorem joinAll_replicate_succ (s : String) (n : Nat) :
    joinAll (List.replicate (n + 1) s) = joinAll (List.replicate n s) ++ s := by
  induction n with
  | zero =>
    show s ++ "" = "" ++ s
    rw [str_append_empty, str_empty_append]
  | succ m ih =>
    have h1 : joinAll (List.replicate (m + 2) s) = s ++ joinAll (List.replicate (m + 1) s) := by
      simp [List.replicate, joinAll]
    have h2 : joinAll (List.replicate (m + 1) s) = s ++ joinAll (List.replicate m s) := by
      simp [List.replicate, joinAll]
    rw [h1, ih, ← str_append_assoc, ← h2, ← ih]

theorem lastChars_append (n : Nat) (a b : String) (h : n ≤ strLen b) :
    lastChars n (a ++ b) = lastChars n b := by
  have hb2 : strLen b = b.data.length := by rw [strLen_eq]; rfl
  have hb : n ≤ b.data.reverse.length := by rw [List.length_reverse]; omega
  simp only [lastChars, data_append, List.reverse_append]
  rw [List.take_append_of_le_length hb]

theorem decReprAux_len :
    ∀ fuel n k, 1 ≤ k → n < 10 ^ k → n < fuel → (decReprAux fuel n).length ≤ k := by
  intro fuel
  induction fuel with
  | zero => intro n k _ _ h; omega
  | succ m ih =>
    intro n k hk hpow hfuel
    by_cases hsmall : n < 10
    · simp [decReprAux, hsmall]; omega
    · have hk2 : 2 ≤ k := by
        by_contra hlt
        have : k = 1 := by omega
        subst this
        simp at hpow
        omega
      have hstep : (decReprAux (m + 1) n).length
          = (decReprAux m (n / 10)).length + 1 := by
        simp [decReprAux, hsmall]
      rw [hstep]
      have hdiv : n / 10 < 10 ^ (k - 1) := by
        have h10 : 0 < 10 := by norm_num
        rw [Nat.div_lt_iff_lt_mul h10]
        have : 10 ^ (k - 1) * 10 = 10 ^ k := by
          rw [← pow_succ]
          congr 1
          omega
        omega
      have hfuel2 : n / 10 < m := by
        have h1 : n / 10 < n := Nat.div_lt_self (by omega) (by norm_num)
        omega
      have := ih (n / 10) (k - 1) (by omega) hdiv hfuel2
      omega

theorem strLen_decRepr_le (n k : Nat) (hk : 1 ≤ k) (h : n < 10 ^ k) :
    strLen (decRepr n) ≤ k := by
  have := decReprAux_len (n + 1) n k hk h (by omega)
  simpa [decRepr, strLen_mk] using this

/-- Severity levels of `models/tool_models.py` (`Severity(str, Enum)`). -/
inductive Severity where
  | critical
  | high
  | medium
  | low
  deriving DecidableEq, Repr

/-- A finding, as in `models/tool_models.py` (`Finding(BaseModel)`). -/
structure Finding where
  severity : Severity
  title : String
  description : String
  resource_address : String
  remediation : String
  deriving DecidableEq, Repr

/-- Result record of a tool execution, as in `models/tool_models.py`
(`ToolOutput(BaseModel)`). -/
structure ToolOutput where
  success : Bool
  findings : List Finding
  error : Option String
  deriving DecidableEq, Repr

namespace OutputFormatter

/-- Emoji indicator per severity (`SEVERITY_EMOJIS` in the source; the
`.get(severity, "⚪")` default is unreachable since the enum is total). -/
def SEVERITY_EMOJIS : Severity → String
  | .critical => "🔴"
  | .high => "🟠"
  | .medium => "🟡"
  | .low => "🟢"

/-- Maximum characters per section before truncation. -/
def MAX_SECTION_LENGTH : Nat := 9000

/-- Numeric order for severity sorting (`_severity_order`; lower = more
severe; the `.get(severity, 99)` default is unreachable). -/
def severity_order : Severity → Nat
  | .critical => 0
  | .high => 1
  | .medium => 2
  | .low => 3

/-- Value of Python `finding.severity.value.capitalize()`. -/
def severity_label : Severity → String
  | .critical => "Critical"
  | .high => "High"
  | .medium => "Medium"
  | .low => "Low"

/-- `_filter_by_category`: keep findings whose lowercased `title description`
text contains one of the (lowercased) category keywords. -/
def filter_by_category (findings : List Finding) (categories : List String) : List Finding :=
  findings.filter (fun f =>
    categories.any (fun cat => strIn (lowerStr cat) (lowerStr (f.title ++ " " ++ f.description))))

/-- `_format_single_finding`. -/
def format_single_finding (f : Finding) : String :=
  "\n" ++ SEVERITY_EMOJIS f.severity ++ " **" ++ severity_label f.severity ++ "**: " ++ f.title ++ "\n" ++
  "- **Resource**: `" ++ f.resource_address ++ "`\n" ++
  "- **Issue**: " ++ f.description ++ "\n" ++
  "- **Remediation**: " ++ f.remediation ++ "\n"

/-- `_format_security_section`: per-finding rendering is character for
character the same as `_format_single_finding`. -/
def format_security_section (findings : List Finding) : String :=
  "\n### 🚨 Security Findings\n" ++
  joinAll ((pySorted (fun f => severity_order f.severity) findings).map format_single_finding)

/-- One finding's rendering inside the cost section's loop. -/
def format_cost_entry (f : Finding) : String :=
  "\n" ++ SEVERITY_EMOJIS f.severity ++ " " ++ f.title ++ "\n" ++
  "- **Resource**: `" ++ f.resource_address ++ "`\n" ++
  "- **Impact**: " ++ f.description ++ "\n" ++
  "- **Recommendation**: " ++ f.remediation ++ "\n"

/-- `_format_cost_section` in the `cost_analysis=None` case (no table). -/
def format_cost_section (findings : List Finding) : String :=
  "\n### 💰 Cost Analysis\n" ++
  (if findings.isEmpty then "" else
    "\n**Cost Findings:**\n" ++ joinAll (findings.map format_cost_entry))

/-- One finding's rendering inside the operational section's loop. -/
def format_operational_entry (f : Finding) : String :=
  "\n" ++ SEVERITY_EMOJIS f.severity ++ " " ++ f.title ++ "\n" ++
  "- **Resource**: `" ++ f.resource_address ++ "`\n" ++
  "- **Issue**: " ++ f.description ++ "\n" ++
  "- **Recommendation**: " ++ f.remediation ++ "\n"

/-- `_format_operational_section`. -/
def format_operational_section (findings : List Finding) : String :=
  "\n### ⚙️ Operational Findings\n" ++
  joinAll (findings.map format_operational_entry)

/-- The numbered remediation lines of the recommendations section
(`enumerate(critical_high[:5], 1)` in the source). -/
def numberedRecs : Nat → List Finding → String
  | _, [] => ""
  | i, f :: rest => decRepr i ++ ". " ++ f.remediation ++ "\n" ++ numberedRecs (i + 1) rest

/-- `_format_recommendations_section`. -/
def format_recommendations_section (findings : List Finding) : String :=
  "\n### 🟢 Key Recommendations\n" ++
  (let critical_high := findings.filter (fun f => f.severity == .critical || f.severity == .high)
   if critical_high.isEmpty then
     "\nNo critical or high-priority actions required. Continue monitoring for best practices.\n"
   else
     "\n**Priority Actions:**\n" ++ numberedRecs 1 (critical_high.take 5))

/-- The grouped rendering that `format` builds before `_apply_length_limit`
(the `cost_analysis=None` default case, so the cost section appears exactly
when some finding matches the cost keyword and carries no table). -/
def groupedOutput (findings : List Finding) : String :=
  let security_findings := filter_by_category findings ["security", "compliance"]
  let cost_findings := filter_by_category findings ["cost"]
  let operational_findings := filter_by_category findings ["operations", "operational", "performance"]
  let parts : List String :=
    ["## 🔍 Analysis Summary\n"] ++
    (if security_findings.isEmpty then [] else [format_security_section security_findings]) ++
    (if cost_findings.isEmpty then [] else [format_cost_section cost_findings]) ++
    (if operational_findings.isEmpty then [] else [format_operational_section operational_findings]) ++
    (if findings.isEmpty then [] else [format_recommendations_section findings]) ++
    (if findings.isEmpty then ["\n### 🟢 All Clear\n\n",
      "No security, cost, or operational issues detected in this Terraform plan.\n"] else [])
  joinSep "\n" parts

/-- The first two entries of `truncated_parts` in `_apply_length_limit`
(header and truncation notice), already joined. -/
def TRUNC_BASE : String :=
  "## 🔍 Analysis Summary\n" ++ "\n⚠️ *Output truncated to show critical and high-priority findings only*\n"

/-- The section header inserted before the first included finding. -/
def PRIORITY_HEADER : String := "\n### 🚨 Priority Findings\n"

/-- The `for finding in critical_high` loop of `_apply_length_limit`:
`acc` is the joined `truncated_parts`, `curLen` is `current_length`, and
`inc` is the list of findings included so far (so `inc.length` is
`included_count`). Returns the final accumulated text and included list. -/
def truncLoop : List Finding → String → Nat → List Finding → String × List Finding
  | [], acc, _, inc => (acc, inc)
  | f :: rest, acc, curLen, inc =>
    let t := format_single_finding f
    if curLen + strLen t > MAX_SECTION_LENGTH - 200 then (acc, inc)
    else
      let acc' := (if inc.isEmpty then acc ++ PRIORITY_HEADER else acc) ++ t
      truncLoop rest acc' (curLen + strLen t) (inc ++ [f])

/-- `critical_high` of `_apply_length_limit`: CRITICAL/HIGH findings sorted
by severity (stable). -/
def critical_high_sorted (findings : List Finding) : List Finding :=
  pySorted (fun f => severity_order f.severity)
    (findings.filter (fun f => f.severity == .critical || f.severity == .high))

/-- The truncation loop run from its initial state. -/
def trunc_result (findings : List Finding) : String × List Finding :=
  truncLoop (critical_high_sorted findings) TRUNC_BASE (strLen TRUNC_BASE) []

/-- The findings included by the truncation rebuild, in appended order. -/
def included_findings (findings : List Finding) : List Finding := (trunc_result findings).2

/-- `omitted = len(findings) - included_count`. -/
def omitted_count (findings : List Finding) : Nat :=
  findings.length - (included_findings findings).length

/-- The omitted-findings footer appended when `omitted > 0`. -/
def footerStr (n : Nat) : String :=
  "\n\n*" ++ decRepr n ++ " additional findings omitted due to length constraints*\n"

/-- The full rebuild produced by `_apply_length_limit` when the grouped
output is too long. -/
def truncated_output (findings : List Finding) : String :=
  if 0 < omitted_count findings then (trunc_result findings).1 ++ footerStr (omitted_count findings)
  else (trunc_result findings).1

/-- `_apply_length_limit`. -/
def apply_length_limit (output : String) (findings : List Finding) : String :=
  if strLen output ≤ MAX_SECTION_LENGTH then output else truncated_output findings

/-- `OutputFormatter.format` with the `cost_analysis=None` default. -/
def format (findings : List Finding) : String :=
  apply_length_limit (groupedOutput findings) findings

end OutputFormatter

namespace OutputFormatter

theorem strLen_TRUNC_BASE : strLen TRUNC_BASE = 94 := by decide

theorem strLen_PRIORITY_HEADER : strLen PRIORITY_HEADER = 25 := by decide

theorem max_minus_margin : MAX_SECTION_LENGTH - 200 = 8800 := by decide

theorem truncLoop_cons_break (f : Finding) (rest : List Finding) (acc : String) (cur : Nat)
    (inc : List Finding) (h : 8800 < cur + strLen (format_single_finding f)) :
    truncLoop (f :: rest) acc cur inc = (acc, inc) := by
  simp only [truncLoop]
  rw [if_pos]
  rw [max_minus_margin]
  omega

theorem truncLoop_cons_fit (f : Finding) (rest : List Finding) (acc : String) (cur : Nat)
    (inc : List Finding) (h : cur + strLen (format_single_finding f) ≤ 8800) :
    truncLoop (f :: rest) acc cur inc =
      truncLoop rest ((if inc.isEmpty then acc ++ PRIORITY_HEADER else acc) ++ format_single_finding f)
        (cur + strLen (format_single_finding f)) (inc ++ [f]) := by
  simp only [truncLoop]
  rw [if_neg]
  rw [max_minus_margin]
  omega

theorem ite_true_bool {α : Type} (a b : α) : (if (true : Bool) then a else b) = a := rfl

theorem ite_false_bool {α : Type} (a b : α) : (if (false : Bool) then a else b) = b := rfl

theorem isEmpty_append_singleton {α : Type} (inc : List α) (f : α) :
    (inc ++ [f]).isEmpty = false := by
  cases inc <;> rfl

theorem truncLoop_len :
    ∀ (l : List Finding) (acc : String) (cur : Nat) (inc : List Finding),
      strLen (truncLoop l acc cur inc).1
        ≤ strLen acc + (8800 - cur) + (if inc.isEmpty then 25 else 0) := by
  intro l
  induction l with
  | nil =>
    intro acc cur inc
    show strLen acc ≤ _
    split <;> omega
  | cons f rest ih =>
    intro acc cur inc
    by_cases hfit : cur + strLen (format_single_finding f) ≤ 8800
    · cases hinc : inc.isEmpty with
      | true =>
        rw [truncLoop_cons_fit f rest acc cur inc hfit, hinc, ite_true_bool, ite_true_bool]
        have hrec := ih (acc ++ PRIORITY_HEADER ++ format_single_finding f)
          (cur + strLen (format_single_finding f)) (inc ++ [f])
        rw [isEmpty_append_singleton, ite_false_bool] at hrec
        rw [strLen_append, strLen_append, strLen_PRIORITY_HEADER] at hrec
        omega
      | false =>
        rw [truncLoop_cons_fit f rest acc cur inc hfit, hinc, ite_false_bool, ite_false_bool]
        have hrec := ih (acc ++ format_single_finding f)
          (cur + strLen (format_single_finding f)) (inc ++ [f])
        rw [isEmpty_append_singleton, ite_false_bool] at hrec
        rw [strLen_append] at hrec
        omega
    · rw [truncLoop_cons_break f rest acc cur inc (by omega)]
      show strLen acc ≤ _
      split <;> omega

theorem truncLoop_acc_mono :
    ∀ (l : List Finding) (acc : String) (cur : Nat) (inc : List Finding) (s : List Char),
      s <:+: acc.data → s <:+: ((truncLoop l acc cur inc).1).data := by
  intro l
  induction l with
  | nil => intro acc cur inc s hs; exact hs
  | cons f rest ih =>
    intro acc cur inc s hs
    by_cases hfit : cur + strLen (format_single_finding f) ≤ 8800
    · rw [truncLoop_cons_fit f rest acc cur inc hfit]
      apply ih
      rw [data_append]
      cases hinc : inc.isEmpty with
      | true =>
        rw [ite_true_bool, data_append]
        exact infix_append_of_left _ (infix_append_of_left _ hs)
      | false =>
        rw [ite_false_bool]
        exact infix_append_of_left _ hs
    · rw [truncLoop_cons_break f rest acc cur inc (by omega)]
      exact hs

theorem truncLoop_mem :
    ∀ (l : List Finding) (acc : String) (cur : Nat) (inc : List Finding) (f : Finding),
      f ∈ (truncLoop l acc cur inc).2 → f ∈ inc ∨ f ∈ l := by
  intro l
  induction l with
  | nil => intro acc cur inc f hf; exact Or.inl hf
  | cons g rest ih =>
    intro acc cur inc f hf
    by_cases hfit : cur + strLen (format_single_finding g) ≤ 8800
    · rw [truncLoop_cons_fit g rest acc cur inc hfit] at hf
      rcases ih _ _ _ f hf with hmem | hmem
      · rcases List.mem_append.mp hmem with h1 | h1
        · exact Or.inl h1
        · right
          simp at h1
          simp [h1]
      · right
        exact List.mem_cons_of_mem _ hmem
    · rw [truncLoop_cons_break g rest acc cur inc (by omega)] at hf
      exact Or.inl hf

theorem truncLoop_included_text :
    ∀ (l : List Finding) (acc : String) (cur : Nat) (inc : List Finding) (f : Finding),
      f ∈ (truncLoop l acc cur inc).2 →
        f ∈ inc ∨ (format_single_finding f).data <:+: ((truncLoop l acc cur inc).1).data := by
  intro l
  induction l with
  | nil => intro acc cur inc f hf; exact Or.inl hf
  | cons g rest ih =>
    intro acc cur inc f hf
    by_cases hfit : cur + strLen (format_single_finding g) ≤ 8800
    · rw [truncLoop_cons_fit g rest acc cur inc hfit] at hf ⊢
      rcases ih _ _ _ f hf with hmem | hinf
      · rcases List.mem_append.mp hmem with h1 | h1
        · exact Or.inl h1
        · simp at h1
          subst h1
          right
          apply truncLoop_acc_mono
          rw [data_append]
          exact infix_append_of_right _ ⟨[], [], by simp⟩
      · exact Or.inr hinf
    · rw [truncLoop_cons_break g rest acc cur inc (by omega)] at hf ⊢
      exact Or.inl hf

theorem truncLoop_replicate_fit (f : Finding) :
    ∀ (n : Nat) (acc : String) (cur : Nat) (inc : List Finding), inc ≠ [] →
      cur + n * strLen (format_single_finding f) ≤ 8800 →
      truncLoop (List.replicate n f) acc cur inc =
        (acc ++ joinAll (List.replicate n (format_single_finding f)), inc ++ List.replicate n f) := by
  intro n
  induction n with
  | zero =>
    intro acc cur inc _ _
    show (acc, inc) = _
    rw [show joinAll (List.replicate 0 (format_single_finding f)) = "" from rfl, str_append_empty,
      show List.replicate 0 f = ([] : List Finding) from rfl, List.append_nil]
  | succ m ih =>
    intro acc cur inc hne hlen
    have hfit : cur + strLen (format_single_finding f) ≤ 8800 := by
      have : strLen (format_single_finding f) ≤ (m + 1) * strLen (format_single_finding f) := by
        have := Nat.one_le_iff_ne_zero.mpr (Nat.succ_ne_zero m)
        calc strLen (format_single_finding f) = 1 * strLen (format_single_finding f) := by omega
        _ ≤ (m + 1) * strLen (format_single_finding f) :=
          Nat.mul_le_mul_right _ (by omega)
      omega
    rw [show List.replicate (m + 1) f = f :: List.replicate m f from rfl]
    rw [truncLoop_cons_fit f _ acc cur inc hfit]
    have hie : inc.isEmpty = false := by
      cases inc with
      | nil => exact absurd rfl hne
      | cons a b => rfl
    rw [hie, ite_false_bool]
    rw [ih (acc ++ format_single_finding f) (cur + strLen (format_single_finding f)) (inc ++ [f])
      (by simp) (by have := hlen; rw [Nat.succ_mul] at this; omega)]
    rw [Prod.mk.injEq]
    constructor
    · rw [str_append_assoc]
      congr 1
    · simp [List.replicate]

theorem strLen_footerStr (n : Nat) : strLen (footerStr n) = 59 + strLen (decRepr n) := by
  show strLen (("\n\n*" ++ decRepr n) ++ " additional findings omitted due to length constraints*\n") = _
  rw [strLen_append, strLen_append]
  have h1 : strLen "\n\n*" = 3 := by decide
  have h2 : strLen " additional findings omitted due to length constraints*\n" = 56 := by decide
  omega

end OutputFormatter

theorem two_pow_63_lt : 2 ^ 63 < 10 ^ 19 := by norm_num

/-- C1 (amended): for every findings list (of machine-representable length,
`< 2^63` as for any CPython list) whose fully grouped rendering exceeds 9000
characters, `OutputFormatter.format` discards the grouped rendering and
rebuilds from only CRITICAL/HIGH findings sorted by severity: the result is
at most 9000 characters, every included finding's text appears complete
(as a contiguous substring), and when at least one finding was omitted the
result is the rebuilt body followed by a footer whose omitted count equals
the total number of findings minus the number included; when no finding was
omitted, no footer is appended. -/
theorem C1_length_limit_rebuild (findings : List Finding)
    (hlong : 9000 < strLen (OutputFormatter.groupedOutput findings))
    (hsize : findings.length < 2 ^ 63) :
    OutputFormatter.format findings = OutputFormatter.truncated_output findings ∧
    strLen (OutputFormatter.format findings) ≤ 9000 ∧
    (∀ f ∈ OutputFormatter.included_findings findings,
        f.severity = Severity.critical ∨ f.severity = Severity.high) ∧
    (∀ f ∈ OutputFormatter.included_findings findings,
        (OutputFormatter.format_single_finding f).data <:+: (OutputFormatter.format findings).data) ∧
    (0 < OutputFormatter.omitted_count findings →
        OutputFormatter.format findings
          = (OutputFormatter.trunc_result findings).1
            ++ OutputFormatter.footerStr
                (findings.length - (OutputFormatter.included_findings findings).length)) ∧
    (OutputFormatter.omitted_count findings = 0 →
        OutputFormatter.format findings = (OutputFormatter.trunc_result findings).1) := by
  have hmax : OutputFormatter.MAX_SECTION_LENGTH = 9000 := rfl
  have hfmt : OutputFormatter.format findings = OutputFormatter.truncated_output findings := by
    show (if strLen (OutputFormatter.groupedOutput findings) ≤ OutputFormatter.MAX_SECTION_LENGTH
      then OutputFormatter.groupedOutput findings else OutputFormatter.truncated_output findings) = _
    rw [if_neg]
    omega
  have hbody : strLen (OutputFormatter.trunc_result findings).1 ≤ 8825 := by
    have h := OutputFormatter.truncLoop_len (OutputFormatter.critical_high_sorted findings)
      OutputFormatter.TRUNC_BASE (strLen OutputFormatter.TRUNC_BASE) []
    rw [OutputFormatter.strLen_TRUNC_BASE] at h
    rw [show (if ([] : List Finding).isEmpty then 25 else 0) = 25 from rfl] at h
    show strLen (OutputFormatter.truncLoop (OutputFormatter.critical_high_sorted findings)
      OutputFormatter.TRUNC_BASE (strLen OutputFormatter.TRUNC_BASE) []).1 ≤ 8825
    rw [OutputFormatter.strLen_TRUNC_BASE]
    omega
  have homle : OutputFormatter.omitted_count findings < 10 ^ 19 := by
    have h1 : OutputFormatter.omitted_count findings ≤ findings.length := Nat.sub_le _ _
    have := two_pow_63_lt
    omega
  have hdigits : strLen (decRepr (OutputFormatter.omitted_count findings)) ≤ 19 :=
    strLen_decRepr_le _ 19 (by omega) homle
  have hlen : strLen (OutputFormatter.format findings) ≤ 9000 := by
    rw [hfmt]
    show strLen (if 0 < OutputFormatter.omitted_count findings
      then (OutputFormatter.trunc_result findings).1
        ++ OutputFormatter.footerStr (OutputFormatter.omitted_count findings)
      else (OutputFormatter.trunc_result findings).1) ≤ 9000
    by_cases hom : 0 < OutputFormatter.omitted_count findings
    · rw [if_pos hom, strLen_append, OutputFormatter.strLen_footerStr]
      omega
    · rw [if_neg hom]
      omega
  refine ⟨hfmt, hlen, ?_, ?_, ?_, ?_⟩
  · intro f hf
    rcases OutputFormatter.truncLoop_mem _ _ _ _ f hf with h1 | h1
    · simp at h1
    · have h2 := mem_pySorted _ f _ h1
      have h3 := List.mem_filter.mp h2
      have h4 := h3.2
      rw [Bool.or_eq_true, beq_iff_eq, beq_iff_eq] at h4
      exact h4
  · intro f hf
    rcases OutputFormatter.truncLoop_included_text _ _ _ _ f hf with h1 | h1
    · simp at h1
    · rw [hfmt]
      show (OutputFormatter.format_single_finding f).data <:+: (if 0 < OutputFormatter.omitted_count findings
        then (OutputFormatter.trunc_result findings).1
          ++ OutputFormatter.footerStr (OutputFormatter.omitted_count findings)
        else (OutputFormatter.trunc_result findings).1).data
      by_cases hom : 0 < OutputFormatter.omitted_count findings
      · rw [if_pos hom, data_append]
        exact infix_append_of_left _ h1
      · rw [if_neg hom]
        exact h1
  · intro hom
    rw [hfmt]
    show (if 0 < OutputFormatter.omitted_count findings
      then (OutputFormatter.trunc_result findings).1
        ++ OutputFormatter.footerStr (OutputFormatter.omitted_count findings)
      else (OutputFormatter.trunc_result findings).1) = _
    rw [if_pos hom]
    rfl
  · intro hom
    rw [hfmt]
    show (if 0 < OutputFormatter.omitted_count findings
      then (OutputFormatter.trunc_result findings).1
        ++ OutputFormatter.footerStr (OutputFormatter.omitted_count findings)
      else (OutputFormatter.trunc_result findings).1) = _
    rw [if_neg (by omega)]

theorem strLen_groupedOutput_nil : strLen (OutputFormatter.groupedOutput []) ≤ 9000 := by decide

/-- C10: a findings list whose grouped rendering exceeds 9000 characters but
which contains no CRITICAL and no HIGH finding (list length `< 2^63` as for
any CPython list) is formatted as exactly the truncation header plus the
notice plus a footer counting every finding as omitted: the notice appears,
no finding body appears (the output is literally `TRUNC_BASE ++ footer`),
the footer counts all `findings.length` findings, and the total length stays
at most 9000 characters. -/
theorem C10_truncation_hides_all (findings : List Finding)
    (hlong : 9000 < strLen (OutputFormatter.groupedOutput findings))
    (hnoch : ∀ f ∈ findings, f.severity ≠ Severity.critical ∧ f.severity ≠ Severity.high)
    (hsize : findings.length < 2 ^ 63) :
    OutputFormatter.format findings
      = OutputFormatter.TRUNC_BASE ++ OutputFormatter.footerStr findings.length ∧
    OutputFormatter.included_findings findings = [] ∧
    OutputFormatter.omitted_count findings = findings.length ∧
    ("*Output truncated to show critical and high-priority findings only*").data
      <:+: (OutputFormatter.format findings).data ∧
    strLen (OutputFormatter.format findings) ≤ 9000 := by
  have hch : OutputFormatter.critical_high_sorted findings = [] := by
    have hf : findings.filter
        (fun f => f.severity == Severity.critical || f.severity == Severity.high) = [] := by
      rw [List.filter_eq_nil_iff]
      intro a ha
      have h := hnoch a ha
      rw [Bool.or_eq_true, beq_iff_eq, beq_iff_eq]
      rintro (h1 | h1)
      · exact h.1 h1
      · exact h.2 h1
    show pySorted _ (findings.filter _) = []
    rw [hf]
    rfl
  have htr : OutputFormatter.trunc_result findings = (OutputFormatter.TRUNC_BASE, []) := by
    show OutputFormatter.truncLoop (OutputFormatter.critical_high_sorted findings)
      OutputFormatter.TRUNC_BASE (strLen OutputFormatter.TRUNC_BASE) [] = _
    rw [hch]
    rfl
  have hinc : OutputFormatter.included_findings findings = [] := by
    show (OutputFormatter.trunc_result findings).2 = []
    rw [htr]
  have hom : OutputFormatter.omitted_count findings = findings.length := by
    show findings.length - (OutputFormatter.included_findings findings).length = _
    rw [hinc]
    rfl
  have hne : findings ≠ [] := by
    intro hempty
    rw [hempty] at hlong
    have := strLen_groupedOutput_nil
    omega
  have hpos : 0 < OutputFormatter.omitted_count findings := by
    rw [hom]
    exact List.length_pos.mpr hne
  have hfmt : OutputFormatter.format findings
      = OutputFormatter.TRUNC_BASE ++ OutputFormatter.footerStr findings.length := by
    show (if strLen (OutputFormatter.groupedOutput findings) ≤ OutputFormatter.MAX_SECTION_LENGTH
      then OutputFormatter.groupedOutput findings else OutputFormatter.truncated_output findings) = _
    rw [if_neg (by have : OutputFormatter.MAX_SECTION_LENGTH = 9000 := rfl; omega)]
    show (if 0 < OutputFormatter.omitted_count findings
      then (OutputFormatter.trunc_result findings).1
        ++ OutputFormatter.footerStr (OutputFormatter.omitted_count findings)
      else (OutputFormatter.trunc_result findings).1) = _
    rw [if_pos hpos, htr, hom]
  refine ⟨hfmt, hinc, hom, ?_, ?_⟩
  · rw [hfmt, data_append]
    apply infix_append_of_left
    show ("*Output truncated to show critical and high-priority findings only*").data
      <:+: OutputFormatter.TRUNC_BASE.data
    decide
  · rw [hfmt, strLen_append, OutputFormatter.strLen_TRUNC_BASE, OutputFormatter.strLen_footerStr]
    have hlt : findings.length < 10 ^ 19 := by
      have := two_pow_63_lt
      omega
    have := strLen_decRepr_le findings.length 19 (by omega) hlt
    omega

theorem replicate_filter_pos {α : Type} (p : α → Bool) (a : α) (h : p a = true) :
    ∀ n, (List.replicate n a).filter p = List.replicate n a := by
  intro n
  induction n with
  | zero => rfl
  | succ m ih =>
    rw [show List.replicate (m + 1) a = a :: List.replicate m a from rfl]
    rw [List.filter_cons, h, OutputFormatter.ite_true_bool, ih]

theorem replicate_filter_neg {α : Type} (p : α → Bool) (a : α) (h : p a = false) :
    ∀ n, (List.replicate n a).filter p = [] := by
  intro n
  induction n with
  | zero => rfl
  | succ m ih =>
    rw [show List.replicate (m + 1) a = a :: List.replicate m a from rfl]
    rw [List.filter_cons, h, OutputFormatter.ite_false_bool, ih]

/-- Concrete input for the formatter: a CRITICAL finding whose text matches
both the security and the cost keyword sets, so the grouped rendering shows
it twice. -/
def exSecCost : Finding :=
  { severity := .critical
    title := "security and cost exposure in this resource configuration"
    description := "This security finding also raises a cost concern; the same issue is rendered in both report sections and the grouped rendering of twenty copies goes past the section budget."
    resource_address := "aws_instance.example"
    remediation := "Apply the documented fix to the affected resource configuration." }

/-- Twenty copies of `exSecCost`. -/
def exFindings20 : List Finding := List.replicate 20 exSecCost

/-- Concrete input for the formatter: a MEDIUM finding matching only the
security keyword set. -/
def exMediumSec : Finding :=
  { severity := .medium
    title := "security hardening notice for this resource"
    description := "A security configuration observation with a longer explanation so that thirty grouped copies of this entry together go past the section budget of the report renderer, forcing the rebuild path that keeps only top-priority entries and then emits only the omission footer."
    resource_address := "aws_s3_bucket.data"
    remediation := "Review the security configuration and enable all of the recommended settings." }

/-- Thirty copies of `exMediumSec`. -/
def exFindings30 : List Finding := List.replicate 30 exMediumSec

theorem joinSep_cons_cons (sep a b : String) (rest : List String) :
    joinSep sep (a :: b :: rest) = a ++ sep ++ joinSep sep (b :: rest) := rfl

theorem sec20_len : strLen (OutputFormatter.format_security_section exFindings20) = 7725 := by
  show strLen ("\n### 🚨 Security Findings\n" ++
    joinAll ((pySorted (fun f => OutputFormatter.severity_order f.severity) exFindings20).map
      OutputFormatter.format_single_finding)) = 7725
  rw [show exFindings20 = List.replicate 20 exSecCost from rfl, pySorted_replicate,
    List.map_replicate]
  rw [strLen_append, strLen_joinAll_replicate]
  rw [show strLen (OutputFormatter.format_single_finding exSecCost) = 385 from by decide]
  rw [show strLen "\n### 🚨 Security Findings\n" = 25 from by decide]

theorem cost20_len : strLen (OutputFormatter.format_cost_section exFindings20) = 7541 := by
  show strLen ("\n### 💰 Cost Analysis\n" ++
    (if exFindings20.isEmpty then "" else
      "\n**Cost Findings:**\n" ++ joinAll (exFindings20.map OutputFormatter.format_cost_entry))) = 7541
  rw [show exFindings20.isEmpty = false from rfl, OutputFormatter.ite_false_bool]
  rw [show exFindings20 = List.replicate 20 exSecCost from rfl, List.map_replicate]
  rw [strLen_append, strLen_append, strLen_joinAll_replicate]
  rw [show strLen (OutputFormatter.format_cost_entry exSecCost) = 375 from by decide]
  rw [show strLen "\n### 💰 Cost Analysis\n" = 21 from by decide]
  rw [show strLen "\n**Cost Findings:**\n" = 20 from by decide]

theorem recs20_len : strLen (OutputFormatter.format_recommendations_section exFindings20) = 390 := by
  decide

theorem grouped20_len : strLen (OutputFormatter.groupedOutput exFindings20) = 15681 := by
  have hsecfil : OutputFormatter.filter_by_category exFindings20 ["security", "compliance"]
      = exFindings20 :=
    replicate_filter_pos _ exSecCost (by decide) 20
  have hcostfil : OutputFormatter.filter_by_category exFindings20 ["cost"] = exFindings20 :=
    replicate_filter_pos _ exSecCost (by decide) 20
  have hopsfil : OutputFormatter.filter_by_category exFindings20
      ["operations", "operational", "performance"] = [] :=
    replicate_filter_neg _ exSecCost (by decide) 20
  show strLen (joinSep "\n"
    (["## 🔍 Analysis Summary\n"] ++
      (if (OutputFormatter.filter_by_category exFindings20 ["security", "compliance"]).isEmpty
        then [] else [OutputFormatter.format_security_section
          (OutputFormatter.filter_by_category exFindings20 ["security", "compliance"])]) ++
      (if (OutputFormatter.filter_by_category exFindings20 ["cost"]).isEmpty
        then [] else [OutputFormatter.format_cost_section
          (OutputFormatter.filter_by_category exFindings20 ["cost"])]) ++
      (if (OutputFormatter.filter_by_category exFindings20
            ["operations", "operational", "performance"]).isEmpty
        then [] else [OutputFormatter.format_operational_section
          (OutputFormatter.filter_by_category exFindings20
            ["operations", "operational", "performance"])]) ++
      (if exFindings20.isEmpty then []
        else [OutputFormatter.format_recommendations_section exFindings20]) ++
      (if exFindings20.isEmpty then ["\n### 🟢 All Clear\n\n",
        "No security, cost, or operational issues detected in this Terraform plan.\n"] else [])))
    = 15681
  rw [hsecfil, hcostfil, hopsfil]
  rw [show exFindings20.isEmpty = false from rfl]
  rw [show (([] : List Finding)).isEmpty = true from rfl]
  simp only [OutputFormatter.ite_true_bool, OutputFormatter.ite_false_bool]
  show strLen ("## 🔍 Analysis Summary\n" ++ "\n" ++
    (OutputFormatter.format_security_section exFindings20 ++ "\n" ++
      (OutputFormatter.format_cost_section exFindings20 ++ "\n" ++
        OutputFormatter.format_recommendations_section exFindings20))) = 15681
  simp only [strLen_append]
  rw [sec20_len, cost20_len, recs20_len]
  rw [show strLen "## 🔍 Analysis Summary\n" = 22 from by decide]
  rw [show strLen "\n" = 1 from by decide]

theorem sec30_len : strLen (OutputFormatter.format_security_section exFindings30) = 14305 := by
  show strLen ("\n### 🚨 Security Findings\n" ++
    joinAll ((pySorted (fun f => OutputFormatter.severity_order f.severity) exFindings30).map
      OutputFormatter.format_single_finding)) = 14305
  rw [show exFindings30 = List.replicate 30 exMediumSec from rfl, pySorted_replicate,
    List.map_replicate]
  rw [strLen_append, strLen_joinAll_replicate]
  rw [show strLen (OutputFormatter.format_single_finding exMediumSec) = 476 from by decide]
  rw [show strLen "\n### 🚨 Security Findings\n" = 25 from by decide]

theorem recs30_len : strLen (OutputFormatter.format_recommendations_section exFindings30) = 115 := by
  decide

theorem grouped30_len : strLen (OutputFormatter.groupedOutput exFindings30) = 14444 := by
  have hsecfil : OutputFormatter.filter_by_category exFindings30 ["security", "compliance"]
      = exFindings30 :=
    replicate_filter_pos _ exMediumSec (by decide) 30
  have hcostfil : OutputFormatter.filter_by_category exFindings30 ["cost"] = [] :=
    replicate_filter_neg _ exMediumSec (by decide) 30
  have hopsfil : OutputFormatter.filter_by_category exFindings30
      ["operations", "operational", "performance"] = [] :=
    replicate_filter_neg _ exMediumSec (by decide) 30
  show strLen (joinSep "\n"
    (["## 🔍 Analysis Summary\n"] ++
      (if (OutputFormatter.filter_by_category exFindings30 ["security", "compliance"]).isEmpty
        then [] else [OutputFormatter.format_security_section
          (OutputFormatter.filter_by_category exFindings30 ["security", "compliance"])]) ++
      (if (OutputFormatter.filter_by_category exFindings30 ["cost"]).isEmpty
        then [] else [OutputFormatter.format_cost_section
          (OutputFormatter.filter_by_category exFindings30 ["cost"])]) ++
      (if (OutputFormatter.filter_by_category exFindings30
            ["operations", "operational", "performance"]).isEmpty
        then [] else [OutputFormatter.format_operational_section
          (OutputFormatter.filter_by_category exFindings30
            ["operations", "operational", "performance"])]) ++
      (if exFindings30.isEmpty then []
        else [OutputFormatter.format_recommendations_section exFindings30]) ++
      (if exFindings30.isEmpty then ["\n### 🟢 All Clear\n\n",
        "No security, cost, or operational issues detected in this Terraform plan.\n"] else [])))
    = 14444
  rw [hsecfil, hcostfil, hopsfil]
  rw [show exFindings30.isEmpty = false from rfl]
  rw [show (([] : List Finding)).isEmpty = true from rfl]
  simp only [OutputFormatter.ite_true_bool, OutputFormatter.ite_false_bool]
  show strLen ("## 🔍 Analysis Summary\n" ++ "\n" ++
    (OutputFormatter.format_security_section exFindings30 ++ "\n" ++
      OutputFormatter.format_recommendations_section exFindings30)) = 14444
  simp only [strLen_append]
  rw [sec30_len, recs30_len]
  rw [show strLen "## 🔍 Analysis Summary\n" = 22 from by decide]
  rw [show strLen "\n" = 1 from by decide]

theorem ch20 : OutputFormatter.critical_high_sorted exFindings20 = exFindings20 := by
  show pySorted _ (exFindings20.filter _) = _
  rw [show exFindings20 = List.replicate 20 exSecCost from rfl]
  rw [replicate_filter_pos _ exSecCost (by decide) 20, pySorted_replicate]

theorem trunc20 :
    OutputFormatter.trunc_result exFindings20
      = ((OutputFormatter.TRUNC_BASE ++ OutputFormatter.PRIORITY_HEADER
            ++ OutputFormatter.format_single_finding exSecCost)
          ++ joinAll (List.replicate 19 (OutputFormatter.format_single_finding exSecCost)),
        [exSecCost] ++ List.replicate 19 exSecCost) := by
  show OutputFormatter.truncLoop (OutputFormatter.critical_high_sorted exFindings20)
    OutputFormatter.TRUNC_BASE (strLen OutputFormatter.TRUNC_BASE) [] = _
  rw [ch20, OutputFormatter.strLen_TRUNC_BASE]
  rw [show exFindings20 = exSecCost :: List.replicate 19 exSecCost from rfl]
  rw [OutputFormatter.truncLoop_cons_fit exSecCost _ _ _ _
    (by rw [show strLen (OutputFormatter.format_single_finding exSecCost) = 385 from by decide]; omega)]
  rw [show (([] : List Finding)).isEmpty = true from rfl, OutputFormatter.ite_true_bool]
  rw [show strLen (OutputFormatter.format_single_finding exSecCost) = 385 from by decide]
  rw [OutputFormatter.truncLoop_replicate_fit exSecCost 19
    ((OutputFormatter.TRUNC_BASE ++ OutputFormatter.PRIORITY_HEADER)
      ++ OutputFormatter.format_single_finding exSecCost) (94 + 385) ([] ++ [exSecCost])
    (by simp)
    (by rw [show strLen (OutputFormatter.format_single_finding exSecCost) = 385 from by decide]; omega)]
  simp

theorem omitted20 : OutputFormatter.omitted_count exFindings20 = 0 := by
  show exFindings20.length - (OutputFormatter.included_findings exFindings20).length = 0
  have h : OutputFormatter.included_findings exFindings20 = [exSecCost] ++ List.replicate 19 exSecCost := by
    show (OutputFormatter.trunc_result exFindings20).2 = _
    rw [trunc20]
  rw [h]
  rw [show exFindings20 = List.replicate 20 exSecCost from rfl]
  simp

theorem format20_eq : OutputFormatter.format exFindings20 = (OutputFormatter.trunc_result exFindings20).1 := by
  show (if strLen (OutputFormatter.groupedOutput exFindings20) ≤ OutputFormatter.MAX_SECTION_LENGTH
    then OutputFormatter.groupedOutput exFindings20
    else OutputFormatter.truncated_output exFindings20) = _
  rw [if_neg (by
    rw [grouped20_len]
    show ¬ (15681 ≤ OutputFormatter.MAX_SECTION_LENGTH)
    rw [show OutputFormatter.MAX_SECTION_LENGTH = 9000 from rfl]
    omega)]
  show (if 0 < OutputFormatter.omitted_count exFindings20
    then (OutputFormatter.trunc_result exFindings20).1
      ++ OutputFormatter.footerStr (OutputFormatter.omitted_count exFindings20)
    else (OutputFormatter.trunc_result exFindings20).1) = _
  rw [if_neg (by rw [omitted20]; omega)]

theorem lastChars_format20 :
    lastChars 13 (OutputFormatter.format exFindings20)
      = lastChars 13 (OutputFormatter.format_single_finding exSecCost) := by
  rw [format20_eq, trunc20]
  show lastChars 13 ((OutputFormatter.TRUNC_BASE ++ OutputFormatter.PRIORITY_HEADER
    ++ OutputFormatter.format_single_finding exSecCost)
    ++ joinAll (List.replicate 19 (OutputFormatter.format_single_finding exSecCost))) = _
  rw [lastChars_append 13 _ _ (by
    rw [strLen_joinAll_replicate,
      show strLen (OutputFormatter.format_single_finding exSecCost) = 385 from by decide]
    omega)]
  rw [joinAll_replicate_succ]
  rw [lastChars_append 13 _ _ (by
    rw [show strLen (OutputFormatter.format_single_finding exSecCost) = 385 from by decide]
    omega)]

/-- C1 counterexample: `exFindings20` is a list of 20 CRITICAL findings whose
fully grouped rendering is longer than 9000 characters (each finding matches
both the security and the cost keyword sets, so it is rendered twice), yet
the rebuilt output includes all 20 findings, omits none, and therefore ends
with the last finding's text and not with an omitted-findings footer — so
the claim's unconditional "ends with a footer whose omitted count equals the
total number of findings minus the number included" fails on this input. -/
theorem C1_counterexample :
    9000 < strLen (OutputFormatter.groupedOutput exFindings20) ∧
    OutputFormatter.omitted_count exFindings20 = 0 ∧
    OutputFormatter.format exFindings20 = (OutputFormatter.trunc_result exFindings20).1 ∧
    lastChars 13 (OutputFormatter.format exFindings20) ≠ "constraints*\n".data := by
  refine ⟨by rw [grouped20_len]; omega, omitted20, format20_eq, ?_⟩
  rw [lastChars_format20]
  decide

/-- Every omitted-findings footer ends with the characters `constraints*\n`,
so an output that does not end with them carries no footer (supports reading
`C1_counterexample`; not itself a claim theorem). -/
theorem footerStr_lastChars (s : String) (n : Nat) :
    lastChars 13 (s ++ OutputFormatter.footerStr n) = "constraints*\n".data := by
  show lastChars 13 (s ++ (("\n\n*" ++ decRepr n)
    ++ " additional findings omitted due to length constraints*\n")) = _
  rw [← str_append_assoc]
  rw [lastChars_append 13 _ _ (by
    rw [show strLen " additional findings omitted due to length constraints*\n" = 56 from by decide]
    omega)]
  decide

/-- Witness for `C1_length_limit_rebuild` at the concrete input
`exFindings20`. -/
theorem C1_length_limit_rebuild_witness :
    9000 < strLen (OutputFormatter.groupedOutput exFindings20) ∧
    exFindings20.length < 2 ^ 63 ∧
    strLen (OutputFormatter.format exFindings20) ≤ 9000 := by
  have h1 : 9000 < strLen (OutputFormatter.groupedOutput exFindings20) := by
    rw [grouped20_len]; omega
  have h2 : exFindings20.length < 2 ^ 63 := by
    rw [show exFindings20 = List.replicate 20 exSecCost from rfl, List.length_replicate]
    norm_num
  exact ⟨h1, h2, (C1_length_limit_rebuild exFindings20 h1 h2).2.1⟩

/-- Witness for `C10_truncation_hides_all` at the concrete input
`exFindings30` (30 MEDIUM findings): the whole report collapses to the
truncation notice plus a footer counting all 30 findings as omitted. -/
theorem C10_truncation_hides_all_witness :
    9000 < strLen (OutputFormatter.groupedOutput exFindings30) ∧
    OutputFormatter.format exFindings30
      = OutputFormatter.TRUNC_BASE ++ OutputFormatter.footerStr 30 := by
  have h1 : 9000 < strLen (OutputFormatter.groupedOutput exFindings30) := by
    rw [grouped30_len]; omega
  have h2 : ∀ f ∈ exFindings30, f.severity ≠ Severity.critical ∧ f.severity ≠ Severity.high := by
    decide
  have h3 : exFindings30.length < 2 ^ 63 := by
    rw [show exFindings30 = List.replicate 30 exMediumSec from rfl, List.length_replicate]
    norm_num
  have h := (C10_truncation_hides_all exFindings30 h1 h2 h3).1
  rw [show exFindings30.length = 30 from by
    rw [show exFindings30 = List.replicate 30 exMediumSec from rfl, List.length_replicate]] at h
  exact ⟨h1, h⟩

namespace S3Validator

/-- The `required_settings` table of `_validate_public_access`, in the
source's insertion order: key → human-readable label. -/
def required_settings : List (String × String) :=
  [("block_public_acls", "Block Public ACLs"),
   ("block_public_policy", "Block Public Policy"),
   ("ignore_public_acls", "Ignore Public ACLs"),
   ("restrict_public_buckets", "Restrict Public Buckets")]

/-- The CRITICAL finding emitted when `public_access_block is None`. -/
def no_pab_finding (bucket_name : String) : Finding :=
  { severity := .critical
    title := "S3 bucket '" ++ bucket_name ++ "' has no public access block configuration"
    description := "The S3 bucket '" ++ bucket_name ++ "' does not have public access block settings configured. This means the bucket could potentially be made public through ACLs or bucket policies, exposing sensitive data to the internet."
    resource_address := "aws_s3_bucket." ++ bucket_name
    remediation := "Add an aws_s3_bucket_public_access_block resource with all settings set to true:\nresource \"aws_s3_bucket_public_access_block\" \"example\" \x7b\n  bucket = aws_s3_bucket.example.id\n  block_public_acls       = true\n  block_public_policy     = true\n  ignore_public_acls      = true\n  restrict_public_buckets = true\n\x7d" }

/-- The CRITICAL finding listing the disabled public-access-block settings. -/
def disabled_pab_finding (bucket_name : String) (disabled_settings : List String) : Finding :=
  { severity := .critical
    title := "S3 bucket '" ++ bucket_name ++ "' has public access block settings disabled"
    description := "The S3 bucket '" ++ bucket_name ++ "' has the following public access block settings disabled: " ++ joinSep ", " disabled_settings ++ ". This could allow the bucket to be made public, potentially exposing sensitive data."
    resource_address := "aws_s3_bucket." ++ bucket_name
    remediation := "Enable all public access block settings for bucket '" ++ bucket_name ++ "':\nresource \"aws_s3_bucket_public_access_block\" \"example\" \x7b\n  bucket = aws_s3_bucket.example.id\n  block_public_acls       = true\n  block_public_policy     = true\n  ignore_public_acls      = true\n  restrict_public_buckets = true\n\x7d" }

/-- The `disabled_settings` list collected by `_validate_public_access`:
the human label of every required setting whose flag reads false
(`d.get(key, False)`, so an absent key reads false). -/
def disabled_of (d : List (String × Bool)) : List String :=
  required_settings.filterMap
    (fun kv => if dictGet d kv.1 false then none else some kv.2)

/-- `_validate_public_access`. The `public_access_block` dict is an
association list; `d.get(key, False)` is `dictGet d key false`. -/
def validate_public_access (bucket_name : String)
    (public_access_block : Option (List (String × Bool))) : List Finding :=
  match public_access_block with
  | none => [no_pab_finding bucket_name]
  | some d =>
    let disabled_settings := disabled_of d
    if disabled_settings.isEmpty then [] else [disabled_pab_finding bucket_name disabled_settings]

/-- The HIGH finding emitted when `encryption is None`. -/
def no_encryption_finding (bucket_name : String) : Finding :=
  { severity := .high
    title := "S3 bucket '" ++ bucket_name ++ "' does not have encryption enabled"
    description := "The S3 bucket '" ++ bucket_name ++ "' does not have server-side encryption configured. Data stored in this bucket will not be encrypted at rest, which violates security best practices and may not comply with regulatory requirements."
    resource_address := "aws_s3_bucket." ++ bucket_name
    remediation := "Enable server-side encryption for the bucket using AES256 or KMS:\nresource \"aws_s3_bucket_server_side_encryption_configuration\" \"example\" \x7b\n  bucket = aws_s3_bucket.example.id\n  rule \x7b\n    apply_server_side_encryption_by_default \x7b\n      sse_algorithm = \"AES256\"  # or \"aws:kms\" for KMS encryption\n    \x7d\n  \x7d\n\x7d" }

/-- The HIGH finding for an encryption block without `sse_algorithm`. -/
def invalid_encryption_finding (bucket_name : String) : Finding :=
  { severity := .high
    title := "S3 bucket '" ++ bucket_name ++ "' has invalid encryption configuration"
    description := "The S3 bucket '" ++ bucket_name ++ "' has an encryption configuration but no sse_algorithm specified. Encryption will not be applied."
    resource_address := "aws_s3_bucket." ++ bucket_name
    remediation := "Specify a valid sse_algorithm (AES256 or aws:kms) in the encryption configuration." }

/-- The HIGH finding for an unsupported algorithm (shown lowercased, as the
source interpolates the lowercased value). -/
def unsupported_alg_finding (bucket_name sse_algorithm : String) : Finding :=
  { severity := .high
    title := "S3 bucket '" ++ bucket_name ++ "' has unsupported encryption algorithm"
    description := "The S3 bucket '" ++ bucket_name ++ "' specifies an unsupported encryption algorithm: '" ++ sse_algorithm ++ "'. Only AES256 and aws:kms are supported."
    resource_address := "aws_s3_bucket." ++ bucket_name
    remediation := "Use either 'AES256' for S3-managed encryption or 'aws:kms' for KMS-managed encryption." }

/-- The LOW finding for `aws:kms` without an explicit key id. -/
def default_kms_finding (bucket_name : String) : Finding :=
  { severity := .low
    title := "S3 bucket '" ++ bucket_name ++ "' uses default KMS key"
    description := "The S3 bucket '" ++ bucket_name ++ "' is configured to use KMS encryption but no specific KMS key ID is provided. The default AWS-managed key (aws/s3) will be used."
    resource_address := "aws_s3_bucket." ++ bucket_name
    remediation := "Consider specifying a customer-managed KMS key for better control over encryption key management and rotation policies." }

/-- `_validate_encryption`. The `encryption` dict is an association list of
string values; `encryption.get("sse_algorithm", "").lower()` is
`lowerStr (dictGet d "sse_algorithm" "")`. -/
def validate_encryption (bucket_name : String)
    (encryption : Option (List (String × String))) : List Finding :=
  match encryption with
  | none => [no_encryption_finding bucket_name]
  | some d =>
    let sse_algorithm := lowerStr (dictGet d "sse_algorithm" "")
    if sse_algorithm == "" then [invalid_encryption_finding bucket_name]
    else if ¬ (sse_algorithm == "aes256" || sse_algorithm == "aws:kms") then
      [unsupported_alg_finding bucket_name sse_algorithm]
    else if sse_algorithm == "aws:kms" then
      (let kms_key_id := dictGet d "kms_master_key_id" ""
       if kms_key_id == "" then [default_kms_finding bucket_name] else [])
    else []

/-- `S3ValidatorTool.execute` on validated input (public-access check first,
then encryption check; pydantic validation itself is not modelled). -/
def execute (bucket_name : String) (public_access_block : Option (List (String × Bool)))
    (encryption : Option (List (String × String))) : ToolOutput :=
  { success := true
    findings := validate_public_access bucket_name public_access_block
      ++ validate_encryption bucket_name encryption
    error := none }

end S3Validator

theorem validate_encryption_not_critical (bucket_name : String)
    (encryption : Option (List (String × String))) :
    ∀ f ∈ S3Validator.validate_encryption bucket_name encryption,
      f.severity ≠ Severity.critical := by
  intro f hf
  cases encryption with
  | none =>
    simp [S3Validator.validate_encryption] at hf
    subst hf
    show Severity.high ≠ Severity.critical
    decide
  | some d =>
    simp only [S3Validator.validate_encryption] at hf
    split at hf
    · simp at hf
      subst hf
      show Severity.high ≠ Severity.critical
      decide
    · split at hf
      · simp at hf
        subst hf
        show Severity.high ≠ Severity.critical
        decide
      · split at hf
        · split at hf
          · simp at hf
            subst hf
            show Severity.low ≠ Severity.critical
            decide
          · simp at hf
        · simp at hf

/-- C4: for every bucket name (and any encryption input), executing the
storage validator with `public_access_block=None` yields exactly one
CRITICAL finding, whose title mentions "public access block"; and executing
it with all four public-access-block flags true and encryption
`{"sse_algorithm": "AES256"}` yields no findings at all (in particular zero
CRITICAL and zero HIGH findings). -/
theorem C4_s3_none_pab_and_clean_config (bucket_name : String)
    (encryption : Option (List (String × String))) :
    ((S3Validator.execute bucket_name none encryption).findings.filter
        (fun f => f.severity == Severity.critical))
      = [S3Validator.no_pab_finding bucket_name] ∧
    ("public access block").data <:+: (S3Validator.no_pab_finding bucket_name).title.data ∧
    (S3Validator.execute bucket_name
      (some [("block_public_acls", true), ("block_public_policy", true),
             ("ignore_public_acls", true), ("restrict_public_buckets", true)])
      (some [("sse_algorithm", "AES256")])).findings = [] := by
  refine ⟨?_, ?_, ?_⟩
  · show ((S3Validator.validate_public_access bucket_name none
      ++ S3Validator.validate_encryption bucket_name encryption).filter
        (fun f => f.severity == Severity.critical)) = _
    rw [List.filter_append]
    rw [show S3Validator.validate_public_access bucket_name none
      = [S3Validator.no_pab_finding bucket_name] from rfl]
    rw [show ([S3Validator.no_pab_finding bucket_name].filter
        (fun f => f.severity == Severity.critical))
      = [S3Validator.no_pab_finding bucket_name] from rfl]
    rw [List.filter_eq_nil_iff.mpr (by
      intro f hf
      have := validate_encryption_not_critical bucket_name encryption f hf
      simpa using this)]
    rw [List.append_nil]
  · show ("public access block").data
      <:+: (("S3 bucket '" ++ bucket_name) ++ "' has no public access block configuration").data
    rw [data_append]
    exact infix_append_of_right _ (by decide)
  · rfl

/-- C9: for every non-None public-access-block dictionary, a required flag
that is absent from the dictionary is treated as false: its human-readable
label appears among the disabled settings, the validator emits exactly the
single disabled-settings finding, that finding is CRITICAL, and the label
occurs in its description — so a partially specified configuration never
passes the public-access check. -/
theorem C9_absent_flag_treated_false (bucket_name : String) (d : List (String × Bool))
    (k label : String) (hk : (k, label) ∈ S3Validator.required_settings)
    (habsent : d.find? (fun kv => kv.1 == k) = none) :
    label ∈ S3Validator.disabled_of d ∧
    S3Validator.validate_public_access bucket_name (some d)
      = [S3Validator.disabled_pab_finding bucket_name (S3Validator.disabled_of d)] ∧
    (S3Validator.disabled_pab_finding bucket_name (S3Validator.disabled_of d)).severity
      = Severity.critical ∧
    label.data
      <:+: (S3Validator.disabled_pab_finding bucket_name (S3Validator.disabled_of d)).description.data := by
  have hget : dictGet d k false = false := by
    unfold dictGet
    rw [habsent]
  have hmem : label ∈ S3Validator.disabled_of d := by
    apply List.mem_filterMap.mpr
    refine ⟨(k, label), hk, ?_⟩
    show (if dictGet d k false then none else some label) = some label
    rw [hget, OutputFormatter.ite_false_bool]
  have hne : (S3Validator.disabled_of d).isEmpty = false := by
    cases hds : S3Validator.disabled_of d with
    | nil => rw [hds] at hmem; simp at hmem
    | cons a b => rfl
  refine ⟨hmem, ?_, rfl, ?_⟩
  · show (if (S3Validator.disabled_of d).isEmpty then []
      else [S3Validator.disabled_pab_finding bucket_name (S3Validator.disabled_of d)]) = _
    rw [hne, OutputFormatter.ite_false_bool]
  · show label.data <:+:
      ((("The S3 bucket '" ++ bucket_name) ++ "' has the following public access block settings disabled: "
        ++ joinSep ", " (S3Validator.disabled_of d))
        ++ ". This could allow the bucket to be made public, potentially exposing sensitive data.").data
    rw [data_append, data_append]
    exact infix_append_of_left _
      (infix_append_of_right _ (joinSep_infix_of_mem ", " label _ hmem))

/-- Witness for `C9_absent_flag_treated_false`: a dictionary carrying only
`block_public_acls=true`; the absent `block_public_policy` flag counts as
disabled. -/
theorem C9_absent_flag_treated_false_witness :
    "Block Public Policy" ∈ S3Validator.disabled_of [("block_public_acls", true)] ∧
    S3Validator.validate_public_access "data" (some [("block_public_acls", true)])
      = [S3Validator.disabled_pab_finding "data"
          (S3Validator.disabled_of [("block_public_acls", true)])] ∧
    (S3Validator.disabled_pab_finding "data"
      (S3Validator.disabled_of [("block_public_acls", true)])).severity = Severity.critical ∧
    ("Block Public Policy").data
      <:+: (S3Validator.disabled_pab_finding "data"
        (S3Validator.disabled_of [("block_public_acls", true)])).description.data :=
  C9_absent_flag_treated_false "data" [("block_public_acls", true)]
    "block_public_policy" "Block Public Policy" (by decide) (by decide)

/-- Embedding of Python `str(i)` for an integer. -/
def intRepr (i : Int) : String :=
  if i < 0 then "-" ++ decRepr i.natAbs else decRepr i.toNat

namespace SecurityGroupValidator

/-- `SENSITIVE_PORTS`, in the source's insertion order:
port → (service name, severity). -/
def SENSITIVE_PORTS : List (Int × String × Severity) :=
  [(22, ("SSH", Severity.critical)),
   (3389, ("RDP", Severity.critical)),
   (3306, ("MySQL", Severity.high)),
   (5432, ("PostgreSQL", Severity.high))]

/-- One ingress rule dict: each field is the result of the corresponding
`rule.get(...)` (absent keys are `none`). -/
structure IngressRule where
  from_port : Option Int
  to_port : Option Int
  protocol : Option String
  cidr_blocks : Option (List String)
  deriving DecidableEq, Repr

/-- The CRITICAL all-traffic finding of `_check_sensitive_ports`. -/
def all_traffic_finding (sg_name : String) : Finding :=
  { severity := .critical
    title := "Security group '" ++ sg_name ++ "' allows all traffic from anywhere"
    description := "The security group '" ++ sg_name ++ "' has a rule that allows ALL traffic (all protocols and ports) from 0.0.0.0/0. This is extremely dangerous and exposes all services to the internet."
    resource_address := "aws_security_group." ++ sg_name
    remediation := "Remove the overly permissive rule and create specific rules for only the required ports and protocols. Restrict source CIDR blocks to known IP ranges or security groups." }

/-- The fixed remediation table of `_get_remediation_for_port`. -/
def remediations : List (Int × String) :=
  [(22, "Restrict SSH access to specific IP ranges or use AWS Systems Manager Session Manager for secure access without exposing SSH to the internet. If SSH access is required, limit the source CIDR to your organization's IP ranges or VPN endpoints."),
   (3389, "Restrict RDP access to specific IP ranges or use AWS Systems Manager Session Manager for secure access without exposing RDP to the internet. If RDP access is required, limit the source CIDR to your organization's IP ranges or VPN endpoints."),
   (3306, "MySQL databases should never be exposed to the internet. Restrict access to application security groups or specific VPC CIDR blocks. Use VPC peering or AWS PrivateLink for cross-VPC database access."),
   (5432, "PostgreSQL databases should never be exposed to the internet. Restrict access to application security groups or specific VPC CIDR blocks. Use VPC peering or AWS PrivateLink for cross-VPC database access.")]

/-- `_get_remediation_for_port`. -/
def get_remediation_for_port (port : Int) (service_name : String) : String :=
  match remediations.find? (fun kv => kv.1 == port) with
  | some kv => kv.2
  | none => "Restrict " ++ service_name ++ " access to specific IP ranges or security groups. Remove 0.0.0.0/0 from the source CIDR blocks."

/-- The per-port finding of `_check_sensitive_ports`. -/
def sensitive_port_finding (sg_name : String) (port : Int) (service_name : String)
    (severity : Severity) : Finding :=
  { severity := severity
    title := "Security group '" ++ sg_name ++ "' exposes " ++ service_name ++ " (port "
      ++ intRepr port ++ ") to the internet"
    description := "The security group '" ++ sg_name ++ "' allows " ++ service_name
      ++ " access on port " ++ intRepr port
      ++ " from 0.0.0.0/0 (anywhere on the internet). This exposes the service to potential brute force attacks, unauthorized access, and security breaches."
    resource_address := "aws_security_group." ++ sg_name
    remediation := get_remediation_for_port port service_name }

/-- `_check_sensitive_ports`: the all-traffic branch fires when the protocol
is the `"-1"` sentinel or either port bound is absent; otherwise each
sensitive port inside `[from_port, to_port]` produces one finding, in table
order. The `cidr_blocks` argument is carried as in the source signature. -/
def check_sensitive_ports (sg_name : String) (from_port to_port : Option Int)
    (protocol : String) (cidr_blocks : List String) : List Finding :=
  match protocol == "-1", from_port, to_port with
  | false, some fp, some tp =>
    SENSITIVE_PORTS.filterMap (fun x =>
      if fp ≤ x.1 ∧ x.1 ≤ tp then
        some (sensitive_port_finding sg_name x.1 x.2.1 x.2.2)
      else none)
  | _, _, _ => [all_traffic_finding sg_name]

/-- `_validate_ingress_rules`: rules without the open-world CIDR contribute
nothing; rules with it are checked for sensitive ports, findings extended in
rule order (the `if not ingress_rules: return findings` early exit of the
source coincides with the empty fold). -/
def validate_ingress_rules (sg_name : String) : List IngressRule → List Finding
  | [] => []
  | rule :: rest =>
    (if (rule.cidr_blocks.getD []).contains "0.0.0.0/0" then
      check_sensitive_ports sg_name rule.from_port rule.to_port
        (rule.protocol.getD "") (rule.cidr_blocks.getD [])
    else []) ++ validate_ingress_rules sg_name rest

theorem check_sensitive_ports_all_traffic (sg_name : String) (fp tp : Option Int)
    (protocol : String) (cidrs : List String)
    (h : protocol = "-1" ∨ fp = none ∨ tp = none) :
    check_sensitive_ports sg_name fp tp protocol cidrs = [all_traffic_finding sg_name] := by
  rcases h with h | h | h
  · subst h
    rfl
  · subst h
    cases hb : protocol == "-1" with
    | true => unfold check_sensitive_ports; rw [hb]
    | false => unfold check_sensitive_ports; rw [hb]
  · subst h
    cases hb : protocol == "-1" with
    | true => unfold check_sensitive_ports; rw [hb]
    | false =>
      unfold check_sensitive_ports
      rw [hb]
      cases fp <;> rfl

end SecurityGroupValidator

/-- C5: for every security-group name, the single ingress rule
`{from_port:22, to_port:22, protocol:"tcp", cidr_blocks:["0.0.0.0/0"]}`
yields exactly one CRITICAL finding whose title mentions "SSH"; the same
rule with `cidr_blocks:["10.0.0.0/8"]` yields zero findings; and any rule
carrying the open-world CIDR whose protocol is the `"-1"` sentinel or whose
`from_port`/`to_port` is absent yields exactly the one CRITICAL
"allows all traffic from anywhere" finding and no per-port findings. -/
theorem C5_sg_ssh_and_all_traffic (sg_name : String) :
    SecurityGroupValidator.validate_ingress_rules sg_name
        [⟨some 22, some 22, some "tcp", some ["0.0.0.0/0"]⟩]
      = [SecurityGroupValidator.sensitive_port_finding sg_name 22 "SSH" Severity.critical] ∧
    (SecurityGroupValidator.sensitive_port_finding sg_name 22 "SSH" Severity.critical).severity
      = Severity.critical ∧
    ("SSH").data
      <:+: (SecurityGroupValidator.sensitive_port_finding sg_name 22 "SSH" Severity.critical).title.data ∧
    SecurityGroupValidator.validate_ingress_rules sg_name
        [⟨some 22, some 22, some "tcp", some ["10.0.0.0/8"]⟩] = [] ∧
    (∀ rule : SecurityGroupValidator.IngressRule,
      "0.0.0.0/0" ∈ rule.cidr_blocks.getD [] →
      (rule.protocol.getD "" = "-1" ∨ rule.from_port = none ∨ rule.to_port = none) →
      SecurityGroupValidator.validate_ingress_rules sg_name [rule]
          = [SecurityGroupValidator.all_traffic_finding sg_name] ∧
        ("allows all traffic from anywhere").data
          <:+: (SecurityGroupValidator.all_traffic_finding sg_name).title.data) := by
  refine ⟨rfl, rfl, ?_, rfl, ?_⟩
  · show ("SSH").data <:+:
      (("Security group '" ++ sg_name ++ "' exposes " ++ "SSH" ++ " (port "
        ++ intRepr 22 ++ ") to the internet")).data
    simp only [data_append]
    exact infix_append_of_left _ (infix_append_of_left _ (infix_append_of_left _
      (infix_append_of_right _ List.infix_rfl)))
  · intro rule hcidr hsent
    have hc : (rule.cidr_blocks.getD []).contains "0.0.0.0/0" = true := by
      exact List.elem_iff.mpr hcidr
    constructor
    · show (if (rule.cidr_blocks.getD []).contains "0.0.0.0/0" then
        SecurityGroupValidator.check_sensitive_ports sg_name rule.from_port rule.to_port
          (rule.protocol.getD "") (rule.cidr_blocks.getD [])
      else []) ++ SecurityGroupValidator.validate_ingress_rules sg_name [] = _
      rw [hc, OutputFormatter.ite_true_bool,
        SecurityGroupValidator.check_sensitive_ports_all_traffic sg_name _ _ _ _ hsent]
      rfl
    · show ("allows all traffic from anywhere").data
        <:+: (("Security group '" ++ sg_name) ++ "' allows all traffic from anywhere").data
      rw [data_append]
      exact infix_append_of_right _ (by decide)

/-- Witness for `C5_sg_ssh_and_all_traffic` at the concrete group name
"web", including the all-traffic clause at a rule with an absent
`from_port`. -/
theorem C5_sg_ssh_and_all_traffic_witness :
    SecurityGroupValidator.validate_ingress_rules "web"
        [⟨some 22, some 22, some "tcp", some ["0.0.0.0/0"]⟩]
      = [SecurityGroupValidator.sensitive_port_finding "web" 22 "SSH" Severity.critical] ∧
    SecurityGroupValidator.validate_ingress_rules "web"
        [⟨some 22, some 22, some "tcp", some ["10.0.0.0/8"]⟩] = [] ∧
    SecurityGroupValidator.validate_ingress_rules "web"
        [⟨none, some 443, some "tcp", some ["0.0.0.0/0"]⟩]
      = [SecurityGroupValidator.all_traffic_finding "web"] := by
  refine ⟨(C5_sg_ssh_and_all_traffic "web").1, (C5_sg_ssh_and_all_traffic "web").2.2.2.1, ?_⟩
  exact ((C5_sg_ssh_and_all_traffic "web").2.2.2.2
    ⟨none, some 443, some "tcp", some ["0.0.0.0/0"]⟩ (by decide) (by decide)).1

/-- Split a character list at every occurrence of `sep`, keeping empty
pieces — the semantics of Python `str.split` with a one-character
separator. -/
def splitOnChar (sep : Char) : List Char → List (List Char)
  | [] => [[]]
  | c :: rest =>
    match splitOnChar sep rest with
    | [] => [[]]
    | g :: gs => if c == sep then [] :: g :: gs else (c :: g) :: gs

/-- Embedding of Python `s.split(sep)` for a one-character separator. -/
def pySplit (s : String) (sep : Char) : List String :=
  (splitOnChar sep s.data).map String.mk

namespace EC2Validator

/-- Outcome of the `describe_instance_types` call as the validator observes
it: a successful response carrying the `InstanceTypes` list, or a
`ClientError` with its error code and rendered message `str(e)`. -/
inductive DescribeInstanceTypesResult where
  | ok (instanceTypes : List String)
  | clientError (code : String) (message : String)
  deriving DecidableEq, Repr

/-- The `recommendations` family-upgrade table of
`_get_instance_type_recommendation`, in source order. -/
def recommendations : List (String × String) :=
  [("t2", "t3"), ("t3", "t3a"), ("m4", "m5"), ("m5", "m6i"),
   ("c4", "c5"), ("c5", "c6i"), ("r4", "r5"), ("r5", "r6i")]

/-- `_get_instance_type_recommendation`. -/
def get_instance_type_recommendation (instance_type region : String) : String :=
  match pySplit instance_type '.' with
  | [family, size] =>
    let alternative_family := dictGet recommendations family "t3"
    let alternative_type := alternative_family ++ "." ++ size
    "Consider using '" ++ alternative_type
      ++ "' instead, which is a current generation instance type available in most regions. Alternatively, check AWS documentation for instance type availability in "
      ++ region ++ "."
  | _ => "Use a valid instance type format (e.g., t3.micro) in region " ++ region

/-- The HIGH finding for an instance type absent from the region
(`InstanceTypes` empty in the response). -/
def not_available_finding (instance_type region : String) : Finding :=
  { severity := .high
    title := "Instance type " ++ instance_type ++ " not available in " ++ region
    description := "The instance type '" ++ instance_type ++ "' is not available in region '"
      ++ region ++ "'. This will cause deployment failures."
    resource_address := "aws_instance"
    remediation := get_instance_type_recommendation instance_type region }

/-- The CRITICAL finding for the `InvalidInstanceType` client error. -/
def invalid_type_finding (instance_type : String) : Finding :=
  { severity := .critical
    title := "Invalid instance type: " ++ instance_type
    description := "The instance type '" ++ instance_type
      ++ "' does not exist. This is likely a typo or an outdated instance type."
    resource_address := "aws_instance"
    remediation := "Check the instance type name for typos. Consider using current generation instance types like t3, m5, or c5 families." }

/-- The MEDIUM finding for any other `ClientError`. -/
def unable_finding (instance_type errorMessage : String) : Finding :=
  { severity := .medium
    title := "Unable to validate instance type " ++ instance_type
    description := "API error while validating instance type: " ++ errorMessage
    resource_address := "aws_instance"
    remediation := "Verify AWS credentials and permissions for EC2 DescribeInstanceTypes API" }

/-- `_validate_instance_type`, as a function of the observed API outcome. -/
def validate_instance_type (instance_type region : String)
    (resp : DescribeInstanceTypesResult) : List Finding :=
  match resp with
  | .ok instanceTypes =>
    if instanceTypes.isEmpty then [not_available_finding instance_type region] else []
  | .clientError code message =>
    if code == "InvalidInstanceType" then [invalid_type_finding instance_type]
    else [unable_finding instance_type message]

end EC2Validator

/-- C2 (amended): for every well-formed instance type `family.size` and
region, an empty `describe_instance_types` result (instance type
definitively not found in the region) produces exactly one HIGH finding
whose remediation suggests the family given by the static family-upgrade
map (t2→t3, m4→m5, c4→c5, r4→r5, unknown families defaulting to "t3") with
the size suffix preserved; a `ClientError` with any code other than
`InvalidInstanceType` (an operational failure) produces exactly one MEDIUM
finding reporting inability to validate. -/
theorem C2_instance_type_findings (instance_type region family size : String)
    (hsplit : pySplit instance_type '.' = [family, size]) :
    EC2Validator.validate_instance_type instance_type region
        (EC2Validator.DescribeInstanceTypesResult.ok [])
      = [EC2Validator.not_available_finding instance_type region] ∧
    (EC2Validator.not_available_finding instance_type region).severity = Severity.high ∧
    (dictGet EC2Validator.recommendations family "t3" ++ "." ++ size).data
      <:+: (EC2Validator.not_available_finding instance_type region).remediation.data ∧
    dictGet EC2Validator.recommendations "t2" "t3" = "t3" ∧
    dictGet EC2Validator.recommendations "m4" "t3" = "m5" ∧
    dictGet EC2Validator.recommendations "c4" "t3" = "c5" ∧
    dictGet EC2Validator.recommendations "r4" "t3" = "r5" ∧
    (∀ fam : String, EC2Validator.recommendations.find? (fun kv => kv.1 == fam) = none →
      dictGet EC2Validator.recommendations fam "t3" = "t3") ∧
    (∀ code msg : String, code ≠ "InvalidInstanceType" →
      EC2Validator.validate_instance_type instance_type region
          (EC2Validator.DescribeInstanceTypesResult.clientError code msg)
        = [EC2Validator.unable_finding instance_type msg] ∧
      (EC2Validator.unable_finding instance_type msg).severity = Severity.medium) := by
  refine ⟨rfl, rfl, ?_, rfl, rfl, rfl, rfl, ?_, ?_⟩
  · show (dictGet EC2Validator.recommendations family "t3" ++ "." ++ size).data
      <:+: (EC2Validator.get_instance_type_recommendation instance_type region).data
    unfold EC2Validator.get_instance_type_recommendation
    rw [hsplit]
    show (dictGet EC2Validator.recommendations family "t3" ++ "." ++ size).data
      <:+: (("Consider using '" ++ (dictGet EC2Validator.recommendations family "t3" ++ "." ++ size)
        ++ "' instead, which is a current generation instance type available in most regions. Alternatively, check AWS documentation for instance type availability in ")
        ++ region ++ ".").data
    simp only [data_append]
    exact infix_append_of_left _ (infix_append_of_left _ (infix_append_of_left _
      (infix_append_of_right _ List.infix_rfl)))
  · intro fam hfam
    unfold dictGet
    rw [hfam]
  · intro code msg hne
    have hb : (code == "InvalidInstanceType") = false := beq_eq_false_iff_ne.mpr hne
    constructor
    · show (if code == "InvalidInstanceType" then [EC2Validator.invalid_type_finding instance_type]
        else [EC2Validator.unable_finding instance_type msg]) = _
      rw [hb, OutputFormatter.ite_false_bool]
    · rfl

/-- C2 counterexample: for the instance type `t2.micro` with an empty
availability result (the claim's "definitively not found" case) the single
finding produced is HIGH, not CRITICAL as the claim states. -/
theorem C2_counterexample :
    (EC2Validator.validate_instance_type "t2.micro" "us-east-1"
      (EC2Validator.DescribeInstanceTypesResult.ok [])).map Finding.severity
      = [Severity.high] ∧
    Severity.high ≠ Severity.critical := ⟨rfl, by decide⟩

/-- Witness for `C2_instance_type_findings` at the concrete instance type
`t2.micro`. -/
theorem C2_instance_type_findings_witness :
    pySplit "t2.micro" '.' = ["t2", "micro"] ∧
    (EC2Validator.validate_instance_type "t2.micro" "us-east-1"
        (EC2Validator.DescribeInstanceTypesResult.ok [])
      = [EC2Validator.not_available_finding "t2.micro" "us-east-1"] ∧
    (EC2Validator.not_available_finding "t2.micro" "us-east-1").severity = Severity.high ∧
    (dictGet EC2Validator.recommendations "t2" "t3" ++ "." ++ "micro").data
      <:+: (EC2Validator.not_available_finding "t2.micro" "us-east-1").remediation.data ∧
    dictGet EC2Validator.recommendations "t2" "t3" = "t3" ∧
    dictGet EC2Validator.recommendations "m4" "t3" = "m5" ∧
    dictGet EC2Validator.recommendations "c4" "t3" = "c5" ∧
    dictGet EC2Validator.recommendations "r4" "t3" = "r5" ∧
    (∀ fam : String, EC2Validator.recommendations.find? (fun kv => kv.1 == fam) = none →
      dictGet EC2Validator.recommendations fam "t3" = "t3") ∧
    (∀ code msg : String, code ≠ "InvalidInstanceType" →
      EC2Validator.validate_instance_type "t2.micro" "us-east-1"
          (EC2Validator.DescribeInstanceTypesResult.clientError code msg)
        = [EC2Validator.unable_finding "t2.micro" msg] ∧
      (EC2Validator.unable_finding "t2.micro" msg).severity = Severity.medium)) :=
  ⟨by decide, C2_instance_type_findings "t2.micro" "us-east-1" "t2" "micro" (by decide)⟩

/-- Left-pad with zeros to `d` characters (for fractional digits). -/
def padZeros (d : Nat) (s : String) : String :=
  if strLen s < d then String.mk (List.replicate (d - strLen s) '0') ++ s else s

/-- Embedding of Python fixed-point formatting `f"{q:.d f}"` of a float,
up to the rounding mode (modelled as round-half-up on the exact rational;
CPython rounds the nearest binary double half-to-even). -/
def fmtFixed (d : Nat) (q : ℚ) : String :=
  let sign := if q < 0 then "-" else ""
  let n : Nat := (⌊(abs q) * (10 : ℚ) ^ d + 1 / 2⌋).toNat
  if d = 0 then sign ++ decRepr n
  else sign ++ decRepr (n / 10 ^ d) ++ "." ++ padZeros d (decRepr (n % 10 ^ d))

namespace CostEstimator

/-- `COST_THRESHOLD_PERCENT`. -/
def COST_THRESHOLD_PERCENT : ℚ := 20

/-- The `percent_change` computation of `_compare_costs`: the relative
change in percent when the old cost is positive, else 100 for a positive
new cost and 0 otherwise. -/
def percentChangeOf (old_cost new_cost : ℚ) : ℚ :=
  if 0 < old_cost then ((new_cost - old_cost) / old_cost) * 100
  else if 0 < new_cost then 100 else 0

/-- `_compare_costs` (costs as exact rationals; exactly one finding per
call, as in the source). The `hours_per_month` parameter is carried as in
the source signature but unused by the comparison. -/
def compare_costs (old_instance_type : String) (old_cost : ℚ) (new_instance_type : String)
    (new_cost : ℚ) (hours_per_month : Nat) : List Finding :=
  let cost_diff := new_cost - old_cost
  let percent_change := percentChangeOf old_cost new_cost
  if COST_THRESHOLD_PERCENT < percent_change then
    [{ severity := .high
       title := "High-impact cost increase: " ++ old_instance_type ++ " → " ++ new_instance_type
       description := "Changing from '" ++ old_instance_type ++ "' to '" ++ new_instance_type
         ++ "' will increase monthly costs by $" ++ fmtFixed 2 (abs cost_diff) ++ " ("
         ++ fmtFixed 1 percent_change ++ "% increase). Old cost: $" ++ fmtFixed 2 old_cost
         ++ "/month, New cost: $" ++ fmtFixed 2 new_cost
         ++ "/month. This exceeds the 20% cost increase threshold."
       resource_address := "aws_instance"
       remediation := "Review the need for upgrading to '" ++ new_instance_type
         ++ "'. Consider:\n- Is the increased capacity required for your workload?\n- Can you use a smaller instance type with similar performance?\n- Are there cost optimization opportunities (Reserved Instances, Savings Plans)?\n- Is this change for a production or development environment?" }]
  else if 0 < percent_change then
    [{ severity := .low
       title := "Cost increase: " ++ old_instance_type ++ " → " ++ new_instance_type
       description := "Changing from '" ++ old_instance_type ++ "' to '" ++ new_instance_type
         ++ "' will increase monthly costs by $" ++ fmtFixed 2 (abs cost_diff) ++ " ("
         ++ fmtFixed 1 percent_change ++ "% increase). Old cost: $" ++ fmtFixed 2 old_cost
         ++ "/month, New cost: $" ++ fmtFixed 2 new_cost ++ "/month."
       resource_address := "aws_instance"
       remediation := "The cost increase is within acceptable limits (<20%). Ensure the instance type change aligns with your workload requirements." }]
  else if percent_change < 0 then
    [{ severity := .low
       title := "Cost savings: " ++ old_instance_type ++ " → " ++ new_instance_type
       description := "Changing from '" ++ old_instance_type ++ "' to '" ++ new_instance_type
         ++ "' will decrease monthly costs by $" ++ fmtFixed 2 (abs cost_diff) ++ " ("
         ++ fmtFixed 1 (abs percent_change) ++ "% decrease). Old cost: $" ++ fmtFixed 2 old_cost
         ++ "/month, New cost: $" ++ fmtFixed 2 new_cost ++ "/month."
       resource_address := "aws_instance"
       remediation := "This change will result in cost savings. Ensure the smaller instance type can handle your workload requirements without performance degradation." }]
  else
    [{ severity := .low
       title := "No cost change: " ++ old_instance_type ++ " → " ++ new_instance_type
       description := "Changing from '" ++ old_instance_type ++ "' to '" ++ new_instance_type
         ++ "' will have minimal cost impact. Both instance types cost approximately $"
         ++ fmtFixed 2 new_cost ++ "/month."
       resource_address := "aws_instance"
       remediation := "No cost-related action required." }]

end CostEstimator

theorem prefix_append_of_left {α : Type} {s a : List α} (b : List α) (h : s <+: a) :
    s <+: a ++ b := by
  obtain ⟨t, rfl⟩ := h
  exact ⟨t ++ b, by simp⟩

/-- C6: every comparison call produces exactly one finding, classified by
the percent change `(new−old)/old×100` (old cost zero treated as 100%
increase when the new cost is positive, else 0%): strictly above 20% gives
HIGH with "High-impact cost increase" framing, increases of at most 20%
give LOW with "Cost increase" framing, a decrease gives LOW with
"Cost savings" framing, and exactly zero change gives LOW with
"No cost change" framing. -/
theorem C6_cost_comparison (old_instance_type new_instance_type : String)
    (old_cost new_cost : ℚ) (hours_per_month : Nat) :
    (CostEstimator.compare_costs old_instance_type old_cost new_instance_type new_cost
      hours_per_month).length = 1 ∧
    (0 < old_cost →
      CostEstimator.percentChangeOf old_cost new_cost = ((new_cost - old_cost) / old_cost) * 100) ∧
    (old_cost = 0 →
      CostEstimator.percentChangeOf old_cost new_cost = if 0 < new_cost then 100 else 0) ∧
    (20 < CostEstimator.percentChangeOf old_cost new_cost →
      ∀ f ∈ CostEstimator.compare_costs old_instance_type old_cost new_instance_type new_cost
          hours_per_month,
        f.severity = Severity.high ∧ ("High-impact cost increase: ").data <+: f.title.data) ∧
    (0 < CostEstimator.percentChangeOf old_cost new_cost →
      CostEstimator.percentChangeOf old_cost new_cost ≤ 20 →
      ∀ f ∈ CostEstimator.compare_costs old_instance_type old_cost new_instance_type new_cost
          hours_per_month,
        f.severity = Severity.low ∧ ("Cost increase: ").data <+: f.title.data) ∧
    (CostEstimator.percentChangeOf old_cost new_cost < 0 →
      ∀ f ∈ CostEstimator.compare_costs old_instance_type old_cost new_instance_type new_cost
          hours_per_month,
        f.severity = Severity.low ∧ ("Cost savings: ").data <+: f.title.data) ∧
    (CostEstimator.percentChangeOf old_cost new_cost = 0 →
      ∀ f ∈ CostEstimator.compare_costs old_instance_type old_cost new_instance_type new_cost
          hours_per_month,
        f.severity = Severity.low ∧ ("No cost change: ").data <+: f.title.data) := by
  have hthr : CostEstimator.COST_THRESHOLD_PERCENT = 20 := rfl
  refine ⟨?_, ?_, ?_, ?_, ?_, ?_, ?_⟩
  · simp only [CostEstimator.compare_costs]
    split
    · rfl
    · split
      · rfl
      · split <;> rfl
  · intro h
    simp only [CostEstimator.percentChangeOf, if_pos h]
  · intro h
    subst h
    simp only [CostEstimator.percentChangeOf]
    rw [if_neg (by norm_num)]
  · intro h f hf
    simp only [CostEstimator.compare_costs] at hf
    rw [if_pos (by rw [hthr]; exact h)] at hf
    rw [List.mem_singleton] at hf
    subst hf
    refine ⟨rfl, ?_⟩
    simp only [data_append]
    exact prefix_append_of_left _ (prefix_append_of_left _ (List.prefix_append _ _))
  · intro h1 h2 f hf
    simp only [CostEstimator.compare_costs] at hf
    rw [if_neg (by rw [hthr]; linarith), if_pos h1] at hf
    rw [List.mem_singleton] at hf
    subst hf
    refine ⟨rfl, ?_⟩
    simp only [data_append]
    exact prefix_append_of_left _ (prefix_append_of_left _ (List.prefix_append _ _))
  · intro h f hf
    simp only [CostEstimator.compare_costs] at hf
    rw [if_neg (by rw [hthr]; linarith), if_neg (by linarith), if_pos h] at hf
    rw [List.mem_singleton] at hf
    subst hf
    refine ⟨rfl, ?_⟩
    simp only [data_append]
    exact prefix_append_of_left _ (prefix_append_of_left _ (List.prefix_append _ _))
  · intro h f hf
    simp only [CostEstimator.compare_costs] at hf
    rw [if_neg (by rw [hthr]; linarith), if_neg (by linarith), if_neg (by linarith)] at hf
    rw [List.mem_singleton] at hf
    subst hf
    refine ⟨rfl, ?_⟩
    simp only [data_append]
    exact prefix_append_of_left _ (prefix_append_of_left _ (List.prefix_append _ _))

/-- Witness for `C6_cost_comparison` at the spec's test vector: old cost
$100/month, new cost $125/month is a 25% increase and is classified HIGH
with the high-impact framing. -/
theorem C6_cost_comparison_witness :
    (CostEstimator.compare_costs "t3.micro" 100 "m5.large" 125 730).length = 1 ∧
    (∀ f ∈ CostEstimator.compare_costs "t3.micro" 100 "m5.large" 125 730,
      f.severity = Severity.high ∧ ("High-impact cost increase: ").data <+: f.title.data) ∧
    CostEstimator.percentChangeOf 100 125 = 25 := by
  have hpc : CostEstimator.percentChangeOf (100 : ℚ) 125 = 25 := by
    simp only [CostEstimator.percentChangeOf]
    rw [if_pos (by norm_num)]
    norm_num
  have h := C6_cost_comparison "t3.micro" "m5.large" 100 125 730
  exact ⟨h.1, h.2.2.2.1 (by rw [hpc]; norm_num), hpc⟩

namespace ErrorHandling

/-- A raised Python exception as the retry helper observes it: its rendered
message `str(e)`, its type name `type(e).__name__`, and — when it is a
boto3 `ClientError` — the response error code. -/
structure PyError where
  message : String
  typeName : String
  clientCode : Option String
  deriving DecidableEq, Repr

/-- The `retryable_codes` list of `is_retryable_error`. -/
def retryable_codes : List String :=
  ["ThrottlingException", "Throttling", "TooManyRequestsException",
   "ProvisionedThroughputExceededException", "RequestLimitExceeded",
   "ServiceUnavailable", "InternalError", "RequestTimeout"]

/-- The `retryable_patterns` list of `is_retryable_error`. -/
def retryable_patterns : List String :=
  ["timeout", "timed out", "connection", "network", "temporarily unavailable"]

/-- `is_retryable_error`: a `ClientError` whose code is in the retryable
list is retryable; otherwise (including for non-client errors) the
lowercased message is scanned for the retryable patterns. -/
def is_retryable_error (error : PyError) : Bool :=
  match error.clientCode with
  | some code =>
    if retryable_codes.contains code then true
    else retryable_patterns.any (fun p => strIn p (lowerStr error.message))
  | none => retryable_patterns.any (fun p => strIn p (lowerStr error.message))

/-- The `RuntimeError("Unexpected state in retry_with_backoff")` raised when
the loop body never runs (`max_retries = 0`). -/
def RUNTIME_ERROR : PyError :=
  { message := "Unexpected state in retry_with_backoff"
    typeName := "RuntimeError"
    clientCode := none }

/-- The `for attempt in range(max_retries)` loop of `retry_with_backoff`.
The wrapped callable is modelled by `func`, where `func i` is the outcome
of its `i+1`-st invocation; `remaining` is `max_retries - attempt` and only
drives the structural recursion. Returns the final outcome, the list of
delays slept (in order), and the number of invocations made. -/
def retry_loop {T : Type} (func : Nat → Except PyError T) (retryable_check : PyError → Bool)
    (initial_delay backoff_factor : ℚ) (max_retries : Nat) :
    Nat → Nat → Except PyError T × List ℚ × Nat
  | 0, attempt => (Except.error RUNTIME_ERROR, [], attempt)
  | remaining + 1, attempt =>
    match func attempt with
    | Except.ok v => (Except.ok v, [], attempt + 1)
    | Except.error e =>
      if retryable_check e = false then (Except.error e, [], attempt + 1)
      else if attempt = max_retries - 1 then (Except.error e, [], attempt + 1)
      else
        ((retry_loop func retryable_check initial_delay backoff_factor max_retries
            remaining (attempt + 1)).1,
         (initial_delay * backoff_factor ^ attempt)
           :: (retry_loop func retryable_check initial_delay backoff_factor max_retries
            remaining (attempt + 1)).2.1,
         (retry_loop func retryable_check initial_delay backoff_factor max_retries
            remaining (attempt + 1)).2.2)

/-- `retry_with_backoff` (arguments in source order; the source defaults
are `max_retries=3`, `initial_delay=1.0`, `backoff_factor=2.0`, and
`retryable_check=is_retryable_error`). -/
def retry_with_backoff {T : Type} (func : Nat → Except PyError T) (max_retries : Nat)
    (initial_delay backoff_factor : ℚ) (retryable_check : PyError → Bool) :
    Except PyError T × List ℚ × Nat :=
  retry_loop func retryable_check initial_delay backoff_factor max_retries max_retries 0

theorem ite_cond_true_eq_false {α : Type} (a b : α) :
    (if (true : Bool) = false then a else b) = b := rfl

theorem ite_cond_false_eq_false {α : Type} (a b : α) :
    (if (false : Bool) = false then a else b) = a := rfl

theorem retry_loop_ok {T : Type} (func : Nat → Except PyError T) (check : PyError → Bool)
    (init backoff : ℚ) (max_retries remaining attempt : Nat) {v : T}
    (hf : func attempt = Except.ok v) :
    retry_loop func check init backoff max_retries (remaining + 1) attempt
      = (Except.ok v, [], attempt + 1) := by
  simp only [retry_loop]
  rw [hf]

theorem retry_loop_nonretryable {T : Type} (func : Nat → Except PyError T)
    (check : PyError → Bool) (init backoff : ℚ) (max_retries remaining attempt : Nat)
    {e : PyError} (hf : func attempt = Except.error e) (hc : check e = false) :
    retry_loop func check init backoff max_retries (remaining + 1) attempt
      = (Except.error e, [], attempt + 1) := by
  simp only [retry_loop]
  rw [hf]
  show (if check e = false then _ else _) = _
  rw [hc, ite_cond_false_eq_false]

theorem retry_loop_last {T : Type} (func : Nat → Except PyError T)
    (check : PyError → Bool) (init backoff : ℚ) (max_retries remaining attempt : Nat)
    {e : PyError} (hf : func attempt = Except.error e) (hc : check e = true)
    (hlast : attempt = max_retries - 1) :
    retry_loop func check init backoff max_retries (remaining + 1) attempt
      = (Except.error e, [], attempt + 1) := by
  simp only [retry_loop]
  rw [hf]
  show (if check e = false then _ else _) = _
  rw [hc, ite_cond_true_eq_false, if_pos hlast]

theorem retry_loop_retry {T : Type} (func : Nat → Except PyError T)
    (check : PyError → Bool) (init backoff : ℚ) (max_retries remaining attempt : Nat)
    {e : PyError} (hf : func attempt = Except.error e) (hc : check e = true)
    (hlast : attempt ≠ max_retries - 1) :
    retry_loop func check init backoff max_retries (remaining + 1) attempt
      = ((retry_loop func check init backoff max_retries remaining (attempt + 1)).1,
         (init * backoff ^ attempt)
           :: (retry_loop func check init backoff max_retries remaining (attempt + 1)).2.1,
         (retry_loop func check init backoff max_retries remaining (attempt + 1)).2.2) := by
  simp only [retry_loop]
  rw [hf]
  show (if check e = false then _ else _) = _
  rw [hc, ite_cond_true_eq_false, if_neg hlast]

end ErrorHandling

/-- C3 (amended): wrapping a function with the retry helper at its defaults
(3 attempts, base delay 1s, multiplier 2): an error not classified
retryable propagates immediately — no delay is slept and no further attempt
is made; a function raising a retryable error on every call is retried with
exponential backoff, sleeping 1s before attempt 2 and 2s before attempt 3,
after which (3 attempts in total) the last error propagates. -/
theorem C3_retry_with_backoff {T : Type} (func : Nat → Except ErrorHandling.PyError T)
    (check : ErrorHandling.PyError → Bool) :
    (∀ e : ErrorHandling.PyError, func 0 = Except.error e → check e = false →
      ErrorHandling.retry_with_backoff func 3 1 2 check = (Except.error e, [], 1)) ∧
    (∀ e0 e1 e2 : ErrorHandling.PyError,
      func 0 = Except.error e0 → func 1 = Except.error e1 → func 2 = Except.error e2 →
      check e0 = true → check e1 = true → check e2 = true →
      ErrorHandling.retry_with_backoff func 3 1 2 check = (Except.error e2, [1, 2], 3)) := by
  constructor
  · intro e h0 hc0
    show ErrorHandling.retry_loop func check 1 2 3 3 0 = _
    exact ErrorHandling.retry_loop_nonretryable func check 1 2 3 2 0 h0 hc0
  · intro e0 e1 e2 h0 h1 h2 hc0 hc1 hc2
    have h1s : ErrorHandling.retry_loop func check 1 2 3 3 0
        = ((ErrorHandling.retry_loop func check 1 2 3 2 1).1,
           ((1 : ℚ) * 2 ^ 0) :: (ErrorHandling.retry_loop func check 1 2 3 2 1).2.1,
           (ErrorHandling.retry_loop func check 1 2 3 2 1).2.2) :=
      ErrorHandling.retry_loop_retry func check 1 2 3 2 0 h0 hc0 (by omega)
    have h2s : ErrorHandling.retry_loop func check 1 2 3 2 1
        = ((ErrorHandling.retry_loop func check 1 2 3 1 2).1,
           ((1 : ℚ) * 2 ^ 1) :: (ErrorHandling.retry_loop func check 1 2 3 1 2).2.1,
           (ErrorHandling.retry_loop func check 1 2 3 1 2).2.2) :=
      ErrorHandling.retry_loop_retry func check 1 2 3 1 1 h1 hc1 (by omega)
    have h3s : ErrorHandling.retry_loop func check 1 2 3 1 2 = (Except.error e2, [], 3) :=
      ErrorHandling.retry_loop_last func check 1 2 3 0 2 h2 hc2 (by omega)
    show ErrorHandling.retry_loop func check 1 2 3 3 0 = _
    rw [h1s, h2s, h3s]
    norm_num

/-- A retryable error: no client code, but the lowercased message contains
the "connection" and "timeout" patterns. -/
def exTimeoutError : ErrorHandling.PyError :=
  { message := "Connection timeout while calling endpoint"
    typeName := "ConnectTimeoutError"
    clientCode := none }

/-- A non-retryable error: no client code and no retryable pattern in the
message. -/
def exValueError : ErrorHandling.PyError :=
  { message := "invalid input value"
    typeName := "ValueError"
    clientCode := none }

/-- C3 counterexample: a function that raises a retryable error on every
call, wrapped with the default parameters, sleeps exactly the delays
1s and 2s (before attempts 2 and 3) before the last error propagates — the
delay list is `[1, 2]` and contains no 4-second delay, so the claim's
"(delays 1s, 2s, 4s before attempts 2 and 3)" is false. -/
theorem C3_counterexample :
    ErrorHandling.retry_with_backoff (fun _ => (Except.error exTimeoutError : Except ErrorHandling.PyError Unit)) 3 1 2
        ErrorHandling.is_retryable_error
      = (Except.error exTimeoutError, [1, 2], 3) ∧
    (4 : ℚ) ∉ [(1 : ℚ), 2] := by
  constructor
  · have hc : ErrorHandling.is_retryable_error exTimeoutError = true := by decide
    have h1s : ErrorHandling.retry_loop (fun _ => (Except.error exTimeoutError : Except ErrorHandling.PyError Unit))
          ErrorHandling.is_retryable_error 1 2 3 3 0
        = ((ErrorHandling.retry_loop (fun _ => (Except.error exTimeoutError : Except ErrorHandling.PyError Unit))
              ErrorHandling.is_retryable_error 1 2 3 2 1).1,
           ((1 : ℚ) * 2 ^ 0) :: (ErrorHandling.retry_loop (fun _ => (Except.error exTimeoutError : Except ErrorHandling.PyError Unit))
              ErrorHandling.is_retryable_error 1 2 3 2 1).2.1,
           (ErrorHandling.retry_loop (fun _ => (Except.error exTimeoutError : Except ErrorHandling.PyError Unit))
              ErrorHandling.is_retryable_error 1 2 3 2 1).2.2) :=
      ErrorHandling.retry_loop_retry _ _ 1 2 3 2 0 rfl hc (by omega)
    have h2s : ErrorHandling.retry_loop (fun _ => (Except.error exTimeoutError : Except ErrorHandling.PyError Unit))
          ErrorHandling.is_retryable_error 1 2 3 2 1
        = ((ErrorHandling.retry_loop (fun _ => (Except.error exTimeoutError : Except ErrorHandling.PyError Unit))
              ErrorHandling.is_retryable_error 1 2 3 1 2).1,
           ((1 : ℚ) * 2 ^ 1) :: (ErrorHandling.retry_loop (fun _ => (Except.error exTimeoutError : Except ErrorHandling.PyError Unit))
              ErrorHandling.is_retryable_error 1 2 3 1 2).2.1,
           (ErrorHandling.retry_loop (fun _ => (Except.error exTimeoutError : Except ErrorHandling.PyError Unit))
              ErrorHandling.is_retryable_error 1 2 3 1 2).2.2) :=
      ErrorHandling.retry_loop_retry _ _ 1 2 3 1 1 rfl hc (by omega)
    have h3s : ErrorHandling.retry_loop (fun _ => (Except.error exTimeoutError : Except ErrorHandling.PyError Unit))
          ErrorHandling.is_retryable_error 1 2 3 1 2
        = (Except.error exTimeoutError, [], 3) :=
      ErrorHandling.retry_loop_last _ _ 1 2 3 0 2 rfl hc (by omega)
    show ErrorHandling.retry_loop (fun _ => (Except.error exTimeoutError : Except ErrorHandling.PyError Unit))
      ErrorHandling.is_retryable_error 1 2 3 3 0 = _
    rw [h1s, h2s, h3s]
    norm_num
  · norm_num

/-- Witness for `C3_retry_with_backoff`: a non-retryable `ValueError`
propagates immediately with one invocation and no delay; an
always-retryable timeout error is retried with delays 1s and 2s and
propagates after the third attempt. -/
theorem C3_retry_with_backoff_witness :
    ErrorHandling.retry_with_backoff
        (fun _ => (Except.error exValueError : Except ErrorHandling.PyError Unit)) 3 1 2
        ErrorHandling.is_retryable_error
      = (Except.error exValueError, [], 1) ∧
    ErrorHandling.retry_with_backoff
        (fun _ => (Except.error exTimeoutError : Except ErrorHandling.PyError Unit)) 3 1 2
        ErrorHandling.is_retryable_error
      = (Except.error exTimeoutError, [1, 2], 3) :=
  ⟨(C3_retry_with_backoff
      (fun _ => (Except.error exValueError : Except ErrorHandling.PyError Unit))
      ErrorHandling.is_retryable_error).1 exValueError rfl (by decide),
   (C3_retry_with_backoff
      (fun _ => (Except.error exTimeoutError : Except ErrorHandling.PyError Unit))
      ErrorHandling.is_retryable_error).2 exTimeoutError exTimeoutError exTimeoutError
      rfl rfl rfl (by decide) (by decide) (by decide)⟩

namespace ErrorHandling

/-- What `execute_tools_with_degradation` appends for one tool: either the
result `execute_func` returned, or the error record
`{tool_name, success: False, error, error_type, findings: []}` built in the
`except` branch (`success=false` is carried by the constructor itself). -/
inductive ToolExecResult (R : Type) where
  | ok (result : R)
  | error_result (tool_name : String) (error : String) (error_type : String)
  deriving DecidableEq, Repr

/-- `execute_tools_with_degradation`: runs `execute_func` on each tool in
order, catching any raised error at the per-tool boundary and recording it
as an error result; the function is total (the coordinator itself never
raises). `name` models `getattr(tool, 'name', str(tool))`. -/
def execute_tools_with_degradation {τ R : Type} (tools : List τ) (name : τ → String)
    (execute_func : τ → Except PyError R) : List (ToolExecResult R) :=
  match tools with
  | [] => []
  | tool :: rest =>
    (match execute_func tool with
     | Except.ok result => ToolExecResult.ok result
     | Except.error e => ToolExecResult.error_result (name tool) e.message e.typeName)
      :: execute_tools_with_degradation rest name execute_func

end ErrorHandling

/-- C8: the coordinator returns one outcome per validator in invocation
order — it equals the pointwise image of `execute_func`: a validator whose
execution raises appears as the error record carrying its name, message and
type (`success=false`), every other validator's result is passed through
unchanged, and the coordinator itself never raises (it is a total
function). -/
theorem C8_graceful_degradation {τ R : Type} (tools : List τ) (name : τ → String)
    (execute_func : τ → Except ErrorHandling.PyError R) :
    ErrorHandling.execute_tools_with_degradation tools name execute_func
      = tools.map (fun tool =>
          match execute_func tool with
          | Except.ok result => ErrorHandling.ToolExecResult.ok result
          | Except.error e =>
            ErrorHandling.ToolExecResult.error_result (name tool) e.message e.typeName) ∧
    (ErrorHandling.execute_tools_with_degradation tools name execute_func).length
      = tools.length ∧
    (∀ (i : Nat) (tool : τ), tools[i]? = some tool →
      (ErrorHandling.execute_tools_with_degradation tools name execute_func)[i]?
        = some (match execute_func tool with
            | Except.ok result => ErrorHandling.ToolExecResult.ok result
            | Except.error e =>
              ErrorHandling.ToolExecResult.error_result (name tool) e.message e.typeName)) := by
  have hmap : ErrorHandling.execute_tools_with_degradation tools name execute_func
      = tools.map (fun tool =>
          match execute_func tool with
          | Except.ok result => ErrorHandling.ToolExecResult.ok result
          | Except.error e =>
            ErrorHandling.ToolExecResult.error_result (name tool) e.message e.typeName) := by
    induction tools with
    | nil => rfl
    | cons t rest ih =>
      show (match execute_func t with
        | Except.ok result => ErrorHandling.ToolExecResult.ok result
        | Except.error e =>
          ErrorHandling.ToolExecResult.error_result (name t) e.message e.typeName)
          :: ErrorHandling.execute_tools_with_degradation rest name execute_func = _
      rw [ih, List.map_cons]
  refine ⟨hmap, by rw [hmap, List.length_map], ?_⟩
  intro i tool htool
  rw [hmap, List.getElem?_map, htool]
  rfl

/-- Witness for `C8_graceful_degradation`: two tools, the first failing
with a `ValueError` and the second succeeding — the outcome list keeps both
in order. -/
theorem C8_graceful_degradation_witness :
    ErrorHandling.execute_tools_with_degradation [("a", false), ("b", true)] Prod.fst
        (fun tool => if tool.2 then Except.ok tool.1 else Except.error exValueError)
      = [ErrorHandling.ToolExecResult.error_result "a" "invalid input value" "ValueError",
         ErrorHandling.ToolExecResult.ok "b"] ∧
    ([("a", false), ("b", true)].map Prod.fst).length = 2 := by
  have h := C8_graceful_degradation [("a", false), ("b", true)] Prod.fst
    (fun tool => if tool.2 then Except.ok tool.1 else Except.error exValueError)
  have h0 := h.2.2 0 ("a", false) (by decide)
  have h1 := h.2.2 1 ("b", true) (by decide)
  refine ⟨?_, rfl⟩
  rw [h.1]
  rfl

namespace Registry

/-- A registered tool as the registry sees it (`tools/base.py` interface):
`name`, `description` and the input schema (carried opaquely as its JSON
text). In the model these accessors always succeed, so the registry's
property-validation `try/except` never fires; the `isinstance(tool,
BaseTool)` `TypeError` is enforced here by typing. -/
structure BaseTool where
  name : String
  description : String
  input_schema : String
  deriving DecidableEq, Repr

/-- The registry state: the `_tools` dict, an insertion-ordered association
list from tool name to tool. -/
structure ToolRegistry where
  tools : List (String × BaseTool)
  deriving DecidableEq, Repr

/-- `ToolRegistry.register`: raises (returns `Except.error`) the
`ValueError` message when a tool with the same name is present, otherwise
stores the tool under its name at the end of the dict. Failure leaves the
registry unchanged (no new state is produced). -/
def register (r : ToolRegistry) (tool : BaseTool) : Except String ToolRegistry :=
  if r.tools.any (fun kv => kv.1 == tool.name) then
    Except.error ("Tool '" ++ tool.name ++ "' is already registered")
  else
    Except.ok { tools := r.tools ++ [(tool.name, tool)] }

/-- `ToolRegistry.get_tool`: lookup by exact name, `none` when absent. -/
def get_tool (r : ToolRegistry) (tool_name : String) : Option BaseTool :=
  (r.tools.find? (fun kv => kv.1 == tool_name)).map Prod.snd

end Registry

/-- C7: if registering `v` in registry `r` succeeds with new state `r'`,
then looking `v.name` up in `r'` returns exactly `v`; a second registration
of any `v2` with the same name fails with the duplicate-name `ValueError`
and produces no new state (so the entry for the name is neither overwritten
nor removed: the lookup in `r'` still returns `v`). -/
theorem C7_registry_no_overwrite (r r' : Registry.ToolRegistry)
    (v v2 : Registry.BaseTool) (hreg : Registry.register r v = Except.ok r')
    (hname : v2.name = v.name) :
    Registry.get_tool r' v.name = some v ∧
    Registry.register r' v2
      = Except.error ("Tool '" ++ v.name ++ "' is already registered") ∧
    (∀ r'' : Registry.ToolRegistry, Registry.register r' v2 ≠ Except.ok r'') := by
  have hany : r.tools.any (fun kv => kv.1 == v.name) = false := by
    by_cases h : r.tools.any (fun kv => kv.1 == v.name) = true
    · rw [Registry.register] at hreg
      rw [h, OutputFormatter.ite_true_bool] at hreg
      cases hreg
    · exact Bool.eq_false_iff.mpr h
  have hr' : r' = { tools := r.tools ++ [(v.name, v)] } := by
    rw [Registry.register, hany, OutputFormatter.ite_false_bool] at hreg
    cases hreg
    rfl
  have hall : ∀ kv ∈ r.tools, (kv.1 == v.name) = false := by
    intro kv hkv
    by_cases h : (kv.1 == v.name) = true
    · exact absurd (List.any_eq_true.mpr ⟨kv, hkv, h⟩) (by rw [hany]; exact Bool.false_ne_true)
    · exact Bool.eq_false_iff.mpr h
  have hfind : r.tools.find? (fun kv => kv.1 == v.name) = none := by
    rw [List.find?_eq_none]
    intro kv hkv
    rw [hall kv hkv]
    exact Bool.false_ne_true
  have hget : Registry.get_tool r' v.name = some v := by
    rw [hr']
    show ((r.tools ++ [(v.name, v)]).find? (fun kv => kv.1 == v.name)).map Prod.snd = _
    rw [List.find?_append, hfind]
    rw [show List.find? (fun kv => kv.1 == v.name) [(v.name, v)] = some (v.name, v) from by
      simp [List.find?]]
    rfl
  have hdup : Registry.register r' v2
      = Except.error ("Tool '" ++ v.name ++ "' is already registered") := by
    rw [Registry.register]
    have hany2 : r'.tools.any (fun kv => kv.1 == v2.name) = true := by
      rw [hr', hname]
      apply List.any_eq_true.mpr
      exact ⟨(v.name, v), by simp, by simp⟩
    rw [hany2, OutputFormatter.ite_true_bool, hname]
  refine ⟨hget, hdup, ?_⟩
  intro r'' hcon
  rw [hdup] at hcon
  cases hcon

/-- Witness for `C7_registry_no_overwrite`: registering "EC2Validator" in
the empty registry, then attempting a second registration under the same
name. -/
theorem C7_registry_no_overwrite_witness :
    Registry.get_tool
        { tools := [("EC2Validator",
            { name := "EC2Validator", description := "validates EC2", input_schema := "s1" })] }
        "EC2Validator"
      = some { name := "EC2Validator", description := "validates EC2", input_schema := "s1" } ∧
    Registry.register
        { tools := [("EC2Validator",
            { name := "EC2Validator", description := "validates EC2", input_schema := "s1" })] }
        { name := "EC2Validator", description := "another tool", input_schema := "s2" }
      = Except.error ("Tool '" ++ "EC2Validator" ++ "' is already registered") := by
  have h := C7_registry_no_overwrite { tools := [] }
    { tools := [("EC2Validator",
        { name := "EC2Validator", description := "validates EC2", input_schema := "s1" })] }
    { name := "EC2Validator", description := "validates EC2", input_schema := "s1" }
    { name := "EC2Validator", description := "another tool", input_schema := "s2" }
    rfl rfl
  exact ⟨h.1, h.2.1⟩
